import Mathlib

/-!
Verification of the employee-wellness survey app (`src/app.py`).

The development shallowly embeds the two pieces of logic the repository
contains:

* the response parser inside `get_gemini_recommendations` (lines 141-182 of
  `src/app.py`), including the surrounding try/except error handling, with
  the HTTP transport and JSON body supplied as an explicit outcome value;
* the questionnaire state machine driven by Streamlit reruns
  (lines 199-321), with session state made explicit and one script
  execution modelled as a function from state and user event to state.

Python string primitives (`str.strip`, `str.split('\n')`,
`str.startswith`, `str.replace('**','')`) are re-implemented structurally
over `List Char` so that every definition evaluates in the kernel.
-/

/-! ## Python string primitives -/

/-- Whitespace characters stripped by Python's `str.strip()` (ASCII part). -/
def pyIsSpace (c : Char) : Bool :=
  c = ' ' || c = '\t' || c = '\n' || c = '\r' || c = '\x0b' || c = '\x0c'

/-- Strip `pyIsSpace` characters from both ends of a character list. -/
def stripChars (l : List Char) : List Char :=
  ((l.dropWhile pyIsSpace).reverse.dropWhile pyIsSpace).reverse

/-- Python `s.strip()`. -/
def pyStrip (s : String) : String :=
  ⟨stripChars s.data⟩

/-- Split a character list at newline characters, Python `s.split('\n')`
semantics: the result always has one more part than there are newlines. -/
def splitNl : List Char → List (List Char)
  | [] => [[]]
  | c :: cs =>
    if c = '\n' then [] :: splitNl cs
    else
      match splitNl cs with
      | [] => [[c]]
      | l :: ls => (c :: l) :: ls

/-- Python `s.split('\n')` on strings. -/
def pySplitNl (s : String) : List String :=
  (splitNl s.data).map (fun l => ⟨l⟩)

/-- Prefix test on character lists, Python `s.startswith(p)`. -/
def headMatches : List Char → List Char → Bool
  | _, [] => true
  | [], _ :: _ => false
  | a :: as, b :: bs => a = b && headMatches as bs

/-- Python `s.startswith(p)` on strings. -/
def pyStartsWith (s p : String) : Bool :=
  headMatches s.data p.data

/-- Python `s.replace('**', '')`: remove non-overlapping `**` pairs,
scanning left to right. -/
def removeStars : List Char → List Char
  | '*' :: '*' :: cs => removeStars cs
  | c :: cs => c :: removeStars cs
  | [] => []

/-- `str.replace('**','')` on strings. -/
def pyRemoveStars (s : String) : String :=
  ⟨removeStars s.data⟩

/-- Python `s[n:]`. -/
def pyDrop (s : String) (n : Nat) : String :=
  ⟨s.data.drop n⟩

/-- Whether a character list contains two adjacent `*` characters, i.e. a
literal `**` emphasis marker. -/
def hasDoubleStar : List Char → Bool
  | [] => false
  | [_] => false
  | a :: b :: rest => (a = '*' && b = '*') || hasDoubleStar (b :: rest)

/-- Whether a string contains a literal `**` marker. -/
def containsStars (s : String) : Bool :=
  hasDoubleStar s.data

/-! ## The response parser (src/app.py lines 141-171) -/

/-- Accumulator of the line-classification loop: recommendations so far,
summary so far, and the `summary_found` flag. -/
structure ParseAcc where
  recs : List String
  summary : String
  summaryFound : Bool
deriving Repr, DecidableEq

/-- One iteration of the `for line in lines` loop of
`get_gemini_recommendations` (src/app.py lines 151-162). -/
def parseStep (acc : ParseAcc) (line : String) : ParseAcc :=
  let stripped := pyStrip line
  if pyStartsWith stripped "Summary:" then
    { acc with summary := pyStrip (pyDrop stripped 8), summaryFound := true }
  else if pyStartsWith stripped "-" && !acc.summaryFound then
    { acc with recs := acc.recs ++ [pyRemoveStars stripped] }
  else if !acc.summaryFound && stripped ≠ "" then
    { acc with recs := acc.recs ++ [pyRemoveStars stripped] }
  else acc

/-- Parse the generated reply text into recommendations and summary,
including the empty-output fallback (src/app.py lines 149-171). -/
def parseGeneratedText (t : String) : List String × String :=
  let acc := (pySplitNl t).foldl parseStep ⟨[], "", false⟩
  if acc.recs.isEmpty && acc.summary = "" then
    ([pyRemoveStars (pyStrip t)], "No distinct summary provided by AI.")
  else (acc.recs, acc.summary)

/-! ## JSON values and the Python exceptions raised while extracting the
candidate text (src/app.py lines 139-146, 172-182) -/

/-- JSON values, as produced by `response.json()`. -/
inductive JVal where
  | null
  | jbool (b : Bool)
  | num (n : Int)
  | str (s : String)
  | arr (xs : List JVal)
  | obj (fs : List (String × JVal))

/-- Python truthiness of a JSON value. -/
def truthy : JVal → Bool
  | .null => false
  | .jbool b => b
  | .num n => n != 0
  | .str s => s != ""
  | .arr xs => !xs.isEmpty
  | .obj fs => !fs.isEmpty

/-- The Python exceptions the extraction code can raise; all are caught by
the final `except Exception` clause. -/
inductive PyExc where
  | keyError (k : String)
  | indexError
  | typeError
  | attributeError
deriving Repr, DecidableEq

/-- Python `str(e)` for the exceptions above; `str(KeyError('k'))` is
`"'k'"`, the others are approximated by a stable description. -/
def pyExcStr : PyExc → String
  | .keyError k => "'" ++ k ++ "'"
  | .indexError => "list index out of range"
  | .typeError => "type error"
  | .attributeError => "attribute error"

/-- First field of a JSON object with the given key. -/
def jLookup (fs : List (String × JVal)) (k : String) : Option JVal :=
  (fs.find? (fun p => p.1 == k)).map Prod.snd

/-- Python `v.get(k)`: `AttributeError` unless `v` is a dict. -/
def pyGet : JVal → String → Except PyExc (Option JVal)
  | .obj fs, k => .ok (jLookup fs k)
  | _, _ => .error .attributeError

/-- Python `v[k]` with a string key. -/
def pySubscript : JVal → String → Except PyExc JVal
  | .obj fs, k =>
    match jLookup fs k with
    | some v => .ok v
    | none => .error (.keyError k)
  | _, _ => .error .typeError

/-- Python `v[0]`: indexing with the integer 0. JSON objects only carry
string keys, so on a dict this raises `KeyError(0)`. -/
def pyIndexZero : JVal → Except PyExc JVal
  | .arr [] => .error .indexError
  | .arr (x :: _) => .ok x
  | .str s =>
    match s.data with
    | [] => .error .indexError
    | c :: _ => .ok (.str ⟨[c]⟩)
  | .obj _ => .error (.keyError "0")
  | _ => .error .typeError

/-- Python `len(v)`: `TypeError` on values without a length. -/
def pyLen : JVal → Except PyExc Nat
  | .arr xs => .ok xs.length
  | .obj fs => .ok fs.length
  | .str s => .ok s.data.length
  | _ => .error .typeError

/-- The guard `result and result.get("candidates") and
len(result["candidates"]) > 0` of src/app.py line 145, with Python
short-circuit evaluation. -/
def candGuard (result : JVal) : Except PyExc Bool := do
  if !truthy result then return false
  let c? ← pyGet result "candidates"
  match c? with
  | none => return false
  | some c =>
    if !truthy c then return false
    let cv ← pySubscript result "candidates"
    let n ← pyLen cv
    return decide (n > 0)

/-- Extraction of `result["candidates"][0]["content"]["parts"][0]["text"]`
(src/app.py line 146). `none` means the guard of line 145 was falsy (the
`else` branch of line 172); a non-string text raises when `.split` is
called on it (line 149), folded into the extraction here. -/
def extractGeneratedText (result : JVal) : Except PyExc (Option String) := do
  let g ← candGuard result
  if g then
    let cands ← pySubscript result "candidates"
    let c0 ← pyIndexZero cands
    let content ← pySubscript c0 "content"
    let parts ← pySubscript content "parts"
    let p0 ← pyIndexZero parts
    let t ← pySubscript p0 "text"
    match t with
    | .str s => return some s
    | _ => .error .attributeError
  else return none

/-- Outcome of the HTTP POST plus `raise_for_status` plus `response.json()`
(src/app.py lines 132-139), supplied by the environment. A non-success
HTTP status raises `requests.exceptions.HTTPError`, a subclass of
`RequestException`, so it is the `requestExc` case. -/
inductive HttpOutcome where
  | requestExc (msg : String)
  | badJson
  | ok (body : JVal)

/-- The whole `try`/`except` body of `get_gemini_recommendations`
(src/app.py lines 130-182), with the transport outcome made explicit. -/
def getGeminiRecommendations (outcome : HttpOutcome) : List String × String :=
  match outcome with
  | .requestExc e =>
    (["Error connecting to AI service: " ++ e ++
        ". Please check your API key and network connection."], "")
  | .badJson =>
    (["Error: Could not parse AI response. The response was not valid JSON."], "")
  | .ok result =>
    match extractGeneratedText result with
    | .ok (some t) => parseGeneratedText t
    | .ok none =>
      (["Error: No recommendations could be generated by the AI. The response structure was unexpected."], "")
    | .error exc =>
      (["An unexpected error occurred: " ++ pyExcStr exc], "")

/-! ## The question bank and the questionnaire session state
(src/app.py lines 10-71, 199-233) -/

/-- The fixed question bank of src/app.py lines 10-71. -/
def questions : List (String × List String) :=
  [("Sales",
    ["How clear and communicated are the overall company sales goals?",
     "How satisfied are you with the lead generation process and quality?",
     "How effective is the sales training and onboarding you received?",
     "Do you feel empowered to make decisions that benefit your sales efforts?",
     "How would you rate the tools and technologies provided for sales activities (e.g., CRM)?",
     "How often do you receive constructive feedback on your sales performance?",
     "How well do you feel your work-life balance is in this sales role?",
     "Do you believe there are sufficient opportunities for advancement within the sales team?",
     "How valued do you feel your contributions are to the overall success of the company?",
     "How open is the communication between the sales team and other departments?"]),
   ("Marketing",
    ["How aligned do you feel your individual goals are with the overall marketing strategy?",
     "How effective do you believe the processes are for campaign development and execution?",
     "How satisfied are you with the level of collaboration within the marketing team?",
     "Do you feel you have the autonomy to explore innovative marketing approaches?",
     "How would you rate the resources available for professional development in marketing?",
     "How clear is the feedback process on your marketing initiatives and performance?",
     "How manageable do you find your workload in your current marketing role?",
     "Do you see clear pathways for career progression within the marketing department?",
     "How recognized do you feel for your creative contributions and marketing successes?",
     "How well do you understand the impact of your marketing work on the company's bottom line?"]),
   ("Engineering",
    ["How well-defined are the project requirements and specifications you work on?",
     "How effective do you believe the code review processes are within your team?",
     "How satisfied are you with the opportunities to work with new technologies?",
     "Do you feel your input is valued in technical decision-making processes?",
     "How would you rate the quality of the tools and software you use for development?",
     "How often do you receive feedback on your technical skills and contributions?",
     "How sustainable do you find the pace and workload of your engineering projects?",
     "Are you aware of opportunities for specialization or leadership within the engineering organization?",
     "How much do you feel your technical expertise contributes to the company's innovation?",
     "How effective is the communication between engineering teams and other departments (e.g., product)?"]),
   ("Human Resources",
    ["How effectively do you believe the company's values are reflected in HR practices?",
     "How satisfied are you with the tools and systems used for HR management?",
     "How well do you feel employee grievances and concerns are addressed?",
     "Do you believe the performance evaluation process is fair and constructive?",
     "How would you rate the support provided by HR leadership and management?",
     "How clear is the communication regarding changes in company policies and procedures?",
     "How manageable do you find the workload associated with your HR responsibilities?",
     "Do you see opportunities for growth and specialization within the HR function?",
     "How valued do you feel your role is in supporting the overall employee experience?",
     "How effective is the collaboration between different teams within the HR department?"]),
   ("Finance",
    ["How clear and consistent are the financial reporting deadlines and expectations?",
     "How satisfied are you with the opportunities to develop your financial analysis skills?",
     "How effective do you believe the internal controls are within the finance department?",
     "Do you feel you have sufficient access to the data and information needed for your work?",
     "How would you rate the quality of the financial software and systems you use?",
     "How often do you receive feedback on the accuracy and efficiency of your work?",
     "How demanding do you find the workload during peak financial periods?",
     "Are you aware of opportunities for advancement or specialization within the finance team?",
     "How much do you feel your financial insights contribute to the company's strategic decisions?",
     "How effective is the communication between the finance department and other departments?"])]

/-- The options of the department select box (src/app.py line 199). -/
def departments : List String :=
  ["Please Select", "Sales", "Marketing", "Engineering", "Human Resources", "Finance"]

/-- Question list of a department, `questions[d]` lookups in the script. -/
def questionsFor (d : String) : List String :=
  match questions.find? (fun p => p.1 == d) with
  | some p => p.2
  | none => []

/-- The Streamlit session state of src/app.py lines 207-222. The ratings
dict is an association list with Python-dict semantics: assignment updates
in place when the key exists and appends otherwise. -/
structure AppState where
  activeDepartment : String
  currentQuestionIndex : Nat
  ratings : List (String × Nat)
  submitted : Bool
  lastSubmittedDepartment : Option String
  lastSubmittedRatings : List (String × Nat)
  recommendations : List String
  summary : String
deriving Repr, DecidableEq

/-- Initial session state (src/app.py lines 207-222). -/
def initState : AppState :=
  { activeDepartment := "Please Select"
    currentQuestionIndex := 0
    ratings := []
    submitted := false
    lastSubmittedDepartment := none
    lastSubmittedRatings := []
    recommendations := []
    summary := "" }

/-- Python `ratings.get(q, d)`. -/
def getRating (r : List (String × Nat)) (q : String) (d : Nat) : Nat :=
  match r.find? (fun p => p.1 == q) with
  | some p => p.2
  | none => d

/-- The value stored for a question, if any. -/
def lookupRating (r : List (String × Nat)) (q : String) : Option Nat :=
  (r.find? (fun p => p.1 == q)).map Prod.snd

/-- Python `ratings[q] = v` on a dict: update in place when present,
append otherwise. -/
def setRating (r : List (String × Nat)) (q : String) (v : Nat) : List (String × Nat) :=
  if r.any (fun p => p.1 == q) then
    r.map (fun p => if p.1 == q then (q, v) else p)
  else r ++ [(q, v)]

/-- One user interaction delivered to a script rerun. `noEvent` is a rerun
triggered by `st.rerun()` where every widget just reports its kept state. -/
inductive Event where
  | selectDept (d : String)
  | moveSlider (v : Nat)
  | clickPrev
  | clickNext
  | clickSubmit
  | noEvent
deriving Repr, DecidableEq

/-- Events the Streamlit widgets can actually deliver: the select box only
offers the six department options and the slider is bounded to 1..5. -/
def validEvent : Event → Bool
  | .selectDept d => departments.contains d
  | .moveSlider v => 1 ≤ v && v ≤ 5
  | _ => true

/-- The department-change reset block (src/app.py lines 225-231). -/
def resetFor (s : AppState) (d : String) : AppState :=
  { s with activeDepartment := d
           currentQuestionIndex := 0
           ratings := []
           submitted := false
           recommendations := []
           summary := "" }

/-- The recommendation display block (src/app.py lines 305-321): calls the
API exactly once per submission and caches the result; `api` is the pair
`get_gemini_recommendations` would return on this run. The `Bool` reports
whether `st.rerun()` was called. -/
def recBlock (api : List String × String) (s : AppState) : AppState × Bool :=
  if s.submitted && s.lastSubmittedDepartment.isSome then
    if s.recommendations.isEmpty && s.summary == "" then
      ({ s with recommendations := api.1, summary := api.2 }, true)
    else (s, false)
  else (s, false)

/-- The questionnaire block (src/app.py lines 236-299) followed by the
recommendation block, for one script run with `selected` the select-box
value. Mirrors the source order: bounds clamp, slider write-back, then the
navigation or submit buttons, each of which calls `st.rerun()`. -/
def questionnaireRun (api : List String × String) (s : AppState) (e : Event)
    (selected : String) : AppState × Bool :=
  if selected == "Please Select" then recBlock api s
  else
    let qs := questionsFor selected
    let total := qs.length
    if s.submitted then recBlock api s
    else
      let s1 :=
        if s.currentQuestionIndex ≥ total then
          { s with currentQuestionIndex := total - 1, submitted := false }
        else s
      let q := qs.getD s1.currentQuestionIndex ""
      let sliderVal :=
        match e with
        | .moveSlider v => v
        | _ => getRating s1.ratings q 3
      let s2 := { s1 with ratings := setRating s1.ratings q sliderVal }
      if s2.currentQuestionIndex < total - 1 then
        match e with
        | .clickPrev =>
          if s2.currentQuestionIndex > 0 then
            ({ s2 with currentQuestionIndex := s2.currentQuestionIndex - 1 }, true)
          else recBlock api s2
        | .clickNext =>
          ({ s2 with currentQuestionIndex := s2.currentQuestionIndex + 1 }, true)
        | _ => recBlock api s2
      else
        match e with
        | .clickSubmit =>
          ({ s2 with submitted := true
                     lastSubmittedDepartment := some selected
                     lastSubmittedRatings := s2.ratings
                     recommendations := []
                     summary := "" }, true)
        | _ => recBlock api s2

/-- One script execution (src/app.py lines 199-321): select-box read,
department-change reset (whose `st.rerun()` aborts the rest of the run),
questionnaire block, recommendation block. -/
def runOnce (api : List String × String) (s : AppState) (e : Event) : AppState × Bool :=
  let selected := match e with | .selectDept d => d | _ => s.activeDepartment
  if selected == s.activeDepartment then
    questionnaireRun api s e selected
  else
    let s1 := resetFor s selected
    if selected == "Please Select" then questionnaireRun api s1 e selected
    else (s1, true)

/-- One user interaction and the `st.rerun()` executions it triggers, up
to the point where the script no longer requests a rerun (at most two
follow-up runs are ever needed). -/
def step (api : List String × String) (s : AppState) (e : Event) : AppState :=
  let p1 := runOnce api s e
  if p1.2 then
    let p2 := runOnce api p1.1 Event.noEvent
    if p2.2 then (runOnce api p2.1 Event.noEvent).1 else p2.1
  else p1.1

/-- Replay a whole interaction sequence. -/
def runTrace (api : List String × String) (s : AppState) (es : List Event) : AppState :=
  es.foldl (step api) s

/-- The question displayed by the current run, matching the bounds clamp
and `department_questions[current_question_index]` of src/app.py
lines 248-253. -/
def currentQuestion (s : AppState) : String :=
  let qs := questionsFor s.activeDepartment
  let i := if s.currentQuestionIndex ≥ qs.length then qs.length - 1 else s.currentQuestionIndex
  qs.getD i ""

/-- Questions the user explicitly touched along a trace: the displayed
question of every slider interaction. -/
def touchedQuestions (api : List String × String) : AppState → List Event → List String
  | _, [] => []
  | s, e :: es =>
    (match e with
     | .moveSlider _ => [currentQuestion s]
     | _ => []) ++ touchedQuestions api (step api s e) es

/-- The module-level part of one script execution: src/app.py line 4 reads
`st.secrets["GEMINI_API_KEY"]` before anything else runs, raising a
`KeyError` (shown as an uncaught exception page) when the key is absent. -/
def scriptRun (secrets : List (String × String)) (api : List String × String)
    (s : AppState) (e : Event) : Except String AppState :=
  match secrets.find? (fun p => p.1 == "GEMINI_API_KEY") with
  | none => .error "'GEMINI_API_KEY'"
  | some _ => .ok (step api s e)

/-- The state after the slider write-back of src/app.py line 269 when the
slider still holds its kept value `ratings.get(current_question, 3)`. -/
def writeBackDefault (s : AppState) : AppState :=
  let q := (questionsFor s.activeDepartment).getD s.currentQuestionIndex ""
  { s with ratings := setRating s.ratings q (getRating s.ratings q 3) }

/-- The state after the slider write-back when the user just moved the
slider to `v`. -/
def writeBackValue (s : AppState) (v : Nat) : AppState :=
  let q := (questionsFor s.activeDepartment).getD s.currentQuestionIndex ""
  { s with ratings := setRating s.ratings q v }

/-- Invariant of the stable states reachable by user interaction: the
active department is one of the select-box options; while answering, the
ratings keys are exactly the first `k` questions of the active department,
in question-bank order, with the displayed index strictly below `k`; every
stored value lies in 1..5; and once submitted, the snapshot of
`last_submitted_ratings` covers the full question list of the recorded
department with all values in 1..5. -/
def StateInv (s : AppState) : Prop :=
  s.activeDepartment ∈ departments ∧
  (s.submitted = false → s.activeDepartment ≠ "Please Select" →
    ∃ k, s.ratings.map Prod.fst = (questionsFor s.activeDepartment).take k ∧
      s.currentQuestionIndex < k ∧ k ≤ (questionsFor s.activeDepartment).length) ∧
  (∀ p ∈ s.ratings, 1 ≤ p.2 ∧ p.2 ≤ 5) ∧
  (s.submitted = true →
    ∃ d, s.lastSubmittedDepartment = some d ∧ s.activeDepartment = d ∧
      s.lastSubmittedRatings.map Prod.fst = questionsFor d ∧
      ∀ p ∈ s.lastSubmittedRatings, 1 ≤ p.2 ∧ p.2 ≤ 5)

/-- A concrete answering-mode session state for the Sales department, used
as test input: index `i`, ratings `r`. -/
def salesAnswering (i : Nat) (r : List (String × Nat)) : AppState :=
  { activeDepartment := "Sales"
    currentQuestionIndex := i
    ratings := r
    submitted := false
    lastSubmittedDepartment := none
    lastSubmittedRatings := []
    recommendations := []
    summary := "" }

/-- A Sales answering state on question 1 with question 0 already rated 5,
used as a concrete test input. -/
def salesStateOne : AppState :=
  salesAnswering 1
    [("How clear and communicated are the overall company sales goals?", 5)]

/-- The full default walkthrough for Sales: select the department, click
Next nine times, submit. -/
def salesDefaultTrace : List Event :=
  Event.selectDept "Sales" :: (List.replicate 9 Event.clickNext ++ [Event.clickSubmit])

/-! ## Parser lemmas -/

theorem hasDoubleStar_cons (c : Char) (l : List Char) (hc : c ≠ '*')
    (hl : hasDoubleStar l = false) : hasDoubleStar (c :: l) = false := by
  cases l with
  | nil => rfl
  | cons b rest => simp [hasDoubleStar, hc] at *; exact hl

theorem hasDoubleStar_star_cons (l : List Char) (hh : l.head? ≠ some '*')
    (hl : hasDoubleStar l = false) : hasDoubleStar ('*' :: l) = false := by
  cases l with
  | nil => rfl
  | cons b rest =>
    simp only [List.head?, ne_eq, Option.some.injEq] at hh
    simp [hasDoubleStar] at *
    exact ⟨fun h => hh h, hl⟩

theorem removeStars_cons_of_ne (c : Char) (cs : List Char) (hc : c ≠ '*') :
    removeStars (c :: cs) = c :: removeStars cs := by
  apply removeStars.eq_2
  intro cs' h1 _
  exact hc h1

theorem removeStars_no_marker (l : List Char) :
    hasDoubleStar (removeStars l) = false := by
  induction l using removeStars.induct with
  | case3 => rfl
  | case1 cs ih => simpa [removeStars] using ih
  | case2 c cs hne ih =>
    by_cases hc : c = '*'
    · subst hc
      match cs, hne with
      | [], _ => rfl
      | d :: cs', hne =>
        have hd : d ≠ '*' := by
          intro hd
          exact hne cs' rfl (by rw [hd])
        rw [removeStars.eq_2 _ _ (fun cs1 _ h2 => hd (by injection h2))]
        apply hasDoubleStar_star_cons
        · rw [removeStars_cons_of_ne d cs' hd]
          simp [hd]
        · rw [removeStars_cons_of_ne d cs' hd] at ih ⊢
          exact ih
    · rw [removeStars_cons_of_ne c cs hc]
      exact hasDoubleStar_cons c _ hc ih

theorem pyRemoveStars_no_marker (s : String) :
    containsStars (pyRemoveStars s) = false :=
  removeStars_no_marker s.data

theorem parseStep_after_summary (acc : ParseAcc) (line : String)
    (h : acc.summaryFound = true) :
    (parseStep acc line).recs = acc.recs ∧ (parseStep acc line).summaryFound = true := by
  simp only [parseStep, h]
  split
  · exact ⟨rfl, rfl⟩
  · simp [h]

theorem foldl_after_summary (lines : List String) (acc : ParseAcc)
    (h : acc.summaryFound = true) :
    (lines.foldl parseStep acc).recs = acc.recs ∧
    (lines.foldl parseStep acc).summaryFound = true := by
  induction lines generalizing acc with
  | nil => exact ⟨rfl, h⟩
  | cons l ls ih =>
    have h1 := parseStep_after_summary acc l h
    have h2 := ih (parseStep acc l) h1.2
    simp only [List.foldl_cons]
    exact ⟨h2.1.trans h1.1, h2.2⟩

theorem parseStep_recs_sub (acc : ParseAcc) (l : String) :
    ∀ r ∈ (parseStep acc l).recs, r ∈ acc.recs ∨ r = pyRemoveStars (pyStrip l) := by
  intro r hr
  simp only [parseStep] at hr
  split at hr
  · exact Or.inl hr
  · split at hr
    · rcases List.mem_append.mp hr with h | h
      · exact Or.inl h
      · exact Or.inr (List.mem_singleton.mp h)
    · split at hr
      · rcases List.mem_append.mp hr with h | h
        · exact Or.inl h
        · exact Or.inr (List.mem_singleton.mp h)
      · exact Or.inl hr

theorem foldl_recs_marker_free (lines : List String) (acc : ParseAcc)
    (h : ∀ r ∈ acc.recs, containsStars r = false) :
    ∀ r ∈ (lines.foldl parseStep acc).recs, containsStars r = false := by
  induction lines generalizing acc with
  | nil => exact h
  | cons l ls ih =>
    refine ih _ ?_
    intro r hr
    rcases parseStep_recs_sub acc l r hr with h1 | h1
    · exact h r h1
    · rw [h1]
      exact pyRemoveStars_no_marker _

/-! ## Claim C10 -/

/-- C10: for the reply text `"- Improve X\n- Improve Y\nSummary: Do Z"` the
parser returns recommendations `["- Improve X", "- Improve Y"]` (leading
hyphens retained) and summary `"Do Z"`. -/
theorem parse_bullets_then_summary :
    parseGeneratedText "- Improve X\n- Improve Y\nSummary: Do Z" =
      (["- Improve X", "- Improve Y"], "Do Z") := by decide

/-! ## Claim C5 -/

/-- C5 (counterexample): on the single line `"Everything is fine."` the
parser does NOT return the placeholder summary claimed; the line is
appended as a recommendation by the permissive branch, so the fallback of
src/app.py line 165 never fires and the summary stays empty. -/
theorem plain_line_placeholder_cex :
    parseGeneratedText "Everything is fine." ≠
      (["Everything is fine."], "No distinct summary provided by AI.") := by decide

/-- C5 (amended): for the reply `"Everything is fine."` (no `Summary:`
line, no hyphen bullets) the parser returns
`(["Everything is fine."], "")`; the fixed placeholder summary is produced
only when both the parsed recommendations and the summary are empty, e.g.
for a whitespace-only reply. -/
theorem plain_line_empty_summary :
    parseGeneratedText "Everything is fine." = (["Everything is fine."], "") ∧
    parseGeneratedText "   \n  " =
      (["" ], "No distinct summary provided by AI.") := by decide

/-! ## Claim C1 -/

/-- C1 (counterexample): after a trimmed `Summary:` line has been seen, a
later `Summary:` line is NOT ignored: it overwrites the recorded summary
(the reply `"Summary: A\nSummary: B"` yields summary `"B"`, not the first
recorded value `"A"`). -/
theorem summary_overwritten_cex :
    (parseGeneratedText "Summary: A").2 = "A" ∧
    (parseGeneratedText "Summary: A\nSummary: B").2 = "B" ∧
    (parseGeneratedText "Summary: A\nSummary: B").2 ≠ "A" := by decide

/-- C1 (amended): once a trimmed line starting with `Summary:` has been
seen, no later line is ever appended to the recommendations and the
`summaryFound` flag stays set; however a later line that itself starts
with `Summary:` still overwrites the recorded summary (the last such line
wins). -/
theorem summary_line_suppresses_later_recs (pre post : List String) (l : String)
    (hl : pyStartsWith (pyStrip l) "Summary:" = true) :
    ((pre ++ l :: post).foldl parseStep ⟨[], "", false⟩).recs
      = ((pre ++ [l]).foldl parseStep ⟨[], "", false⟩).recs ∧
    ((pre ++ l :: post).foldl parseStep ⟨[], "", false⟩).summaryFound = true := by
  have hmid : ((pre ++ [l]).foldl parseStep ⟨[], "", false⟩).summaryFound = true := by
    rw [List.foldl_append]
    simp only [List.foldl_cons, List.foldl_nil]
    simp only [parseStep, hl]
    simp
  have hsplit : pre ++ l :: post = (pre ++ [l]) ++ post := by simp
  rw [hsplit, List.foldl_append]
  exact foldl_after_summary post _ hmid

/-- Witness for `summary_line_suppresses_later_recs` at a concrete reply:
a bullet line after the summary line is dropped. -/
theorem summary_line_suppresses_later_recs_witness :
    pyStartsWith (pyStrip "Summary: done") "Summary:" = true ∧
    (((["- a"] ++ "Summary: done" :: ["- b", "stray"]).foldl parseStep ⟨[], "", false⟩).recs
        = ((["- a"] ++ ["Summary: done"]).foldl parseStep ⟨[], "", false⟩).recs ∧
      ((["- a"] ++ "Summary: done" :: ["- b", "stray"]).foldl parseStep ⟨[], "", false⟩).summaryFound = true) :=
  ⟨by decide,
    summary_line_suppresses_later_recs ["- a"] ["- b", "stray"] "Summary: done" (by decide)⟩

/-! ## Claim C4 -/

/-- C4 (counterexample): emphasis markers are NOT stripped from the
returned summary: the reply `"Summary: **Bold**"` yields the summary
`"**Bold**"`, which still contains a literal `**` marker (the code strips
`**` from recommendation lines only, src/app.py lines 154 vs 158/161). -/
theorem summary_keeps_markers_cex :
    (parseGeneratedText "Summary: **Bold**").2 = "**Bold**" ∧
    containsStars (parseGeneratedText "Summary: **Bold**").2 = true := by decide

/-- C4 (amended): emphasis markers (literal `**` sequences) are absent
from every string in the returned recommendations list, for every reply
text; the returned summary, in contrast, retains any markers appearing in
the reply (see the counterexample). -/
theorem recommendations_marker_free (t : String) :
    ∀ r ∈ (parseGeneratedText t).1, containsStars r = false := by
  intro r hr
  simp only [parseGeneratedText] at hr
  split at hr
  · rw [List.mem_singleton.mp hr]
    exact pyRemoveStars_no_marker _
  · exact foldl_recs_marker_free (pySplitNl t) ⟨[], "", false⟩ (by intro r h; cases h) r hr

/-- Witness for `recommendations_marker_free`: in the reply `"- **x**"`
the marker is stripped and the parsed recommendation is `"- x"`. -/
theorem recommendations_marker_free_witness :
    ("- x" ∈ (parseGeneratedText "- **x**").1) ∧ containsStars "- x" = false :=
  ⟨by decide, recommendations_marker_free "- **x**" "- x" (by decide)⟩

/-! ## Claim C3 -/

theorem string_append_ne_empty (a b : String) (ha : a ≠ "") : a ++ b ≠ "" := by
  intro h
  apply ha
  have hd := congrArg String.data h
  rw [String.data_append] at hd
  have h1 : a.data = [] := (List.append_eq_nil.mp hd).1
  apply String.ext
  rw [h1]

/-- C3: no failure escapes `get_gemini_recommendations`: for every outcome
other than a successful extraction of the candidate text (transport or
connectivity error, non-success HTTP status via `raise_for_status`,
malformed JSON body, missing candidate structure, or any other unexpected
exception) the function returns a one-element recommendations list holding
a non-empty human-readable message together with an empty summary. -/
theorem failures_return_single_message (outcome : HttpOutcome)
    (hfail : ∀ r t, outcome = HttpOutcome.ok r →
      extractGeneratedText r ≠ Except.ok (some t)) :
    ∃ msg, getGeminiRecommendations outcome = ([msg], "") ∧ msg ≠ "" := by
  match outcome with
  | .requestExc e =>
    exact ⟨"Error connecting to AI service: " ++ e ++
        ". Please check your API key and network connection.",
      rfl, string_append_ne_empty _ _ (string_append_ne_empty _ e (by decide))⟩
  | .badJson =>
    exact ⟨"Error: Could not parse AI response. The response was not valid JSON.",
      rfl, by decide⟩
  | .ok result =>
    match hx : extractGeneratedText result with
    | .ok (some t) => exact absurd hx (hfail result t rfl)
    | .ok none =>
      refine ⟨"Error: No recommendations could be generated by the AI. The response structure was unexpected.",
        ?_, by decide⟩
      simp [getGeminiRecommendations, hx]
    | .error exc =>
      refine ⟨"An unexpected error occurred: " ++ pyExcStr exc,
        ?_, string_append_ne_empty _ _ (by decide)⟩
      simp [getGeminiRecommendations, hx]

/-- Witness for `failures_return_single_message` at a concrete transport
failure. -/
theorem failures_return_single_message_witness :
    ∃ msg, getGeminiRecommendations (HttpOutcome.requestExc "Connection refused")
      = ([msg], "") ∧ msg ≠ "" :=
  failures_return_single_message (HttpOutcome.requestExc "Connection refused")
    (fun _ _ h => nomatch h)

/-! ## Claim C7 -/

/-- C7 (counterexample): a well-formed JSON body whose first candidate
lacks the `content`/`parts`/`text` structure does NOT produce the message
stating that no recommendations could be generated: the `KeyError` raised
by `result["candidates"][0]["content"]` is caught by the generic
`except Exception` clause instead. -/
theorem missing_content_generic_message_cex :
    getGeminiRecommendations
        (HttpOutcome.ok (JVal.obj [("candidates", JVal.arr [JVal.obj []])])) =
      (["An unexpected error occurred: 'content'"], "") ∧
    ("An unexpected error occurred: 'content'" ≠
      "Error: No recommendations could be generated by the AI. The response structure was unexpected.") := by
  constructor
  · decide
  · decide

/-- C7 (amended): when the parsed body is falsy, lacks a truthy
`candidates` field, or has an empty candidates list (guard of src/app.py
line 145 false), the function returns the one-element "no recommendations
could be generated" message with an empty summary; when the guard passes
but the `candidates[0].content.parts[0].text` path is missing, the raised
exception is caught by the generic handler and the result is the
one-element `"An unexpected error occurred: ..."` message with an empty
summary. -/
theorem missing_structure_messages (result : JVal) :
    (extractGeneratedText result = Except.ok none →
      getGeminiRecommendations (HttpOutcome.ok result) =
        (["Error: No recommendations could be generated by the AI. The response structure was unexpected."], "")) ∧
    (∀ exc, extractGeneratedText result = Except.error exc →
      getGeminiRecommendations (HttpOutcome.ok result) =
        (["An unexpected error occurred: " ++ pyExcStr exc], "")) := by
  constructor
  · intro h
    simp [getGeminiRecommendations, h]
  · intro exc h
    simp [getGeminiRecommendations, h]

/-- Witness for `missing_structure_messages`: an empty JSON object hits
the "no recommendations" branch; a candidate without `content` hits the
generic handler. -/
theorem missing_structure_messages_witness :
    (getGeminiRecommendations (HttpOutcome.ok (JVal.obj [])) =
      (["Error: No recommendations could be generated by the AI. The response structure was unexpected."], "")) ∧
    (getGeminiRecommendations
        (HttpOutcome.ok (JVal.obj [("candidates", JVal.arr [JVal.obj [("x", JVal.null)]])])) =
      (["An unexpected error occurred: " ++ pyExcStr (PyExc.keyError "content")], "")) :=
  ⟨(missing_structure_messages (JVal.obj [])).1 rfl,
   (missing_structure_messages _).2 (PyExc.keyError "content") rfl⟩

/-! ## Claim C6 -/

/-- C6 (counterexample): with no `GEMINI_API_KEY` in the secrets, even a
pure questionnaire interaction (selecting a department, no API use at all)
fails with the uncaught `KeyError` raised at module top (src/app.py
line 4): the error does not wait for the first API use and the
questionnaire part is not usable. -/
theorem missing_key_kills_questionnaire_cex :
    scriptRun [] (["r"], "s") initState (Event.selectDept "Sales") =
      Except.error "'GEMINI_API_KEY'" := rfl

/-- C6 (amended): if the API key is absent from the secrets, every script
run — questionnaire interactions included — raises `KeyError` at the
module-top `st.secrets["GEMINI_API_KEY"]` lookup before any UI logic or
network call executes, so the whole app (not just the recommendation
feature) is unusable; no network call is ever attempted. -/
theorem missing_key_every_run_fails (secrets : List (String × String))
    (api : List String × String) (s : AppState) (e : Event)
    (h : secrets.find? (fun p => p.1 == "GEMINI_API_KEY") = none) :
    scriptRun secrets api s e = Except.error "'GEMINI_API_KEY'" := by
  simp [scriptRun, h]

/-- Witness for `missing_key_every_run_fails` with unrelated secrets
present. -/
theorem missing_key_every_run_fails_witness :
    scriptRun [("OTHER_KEY", "v")] ([], "") initState Event.clickNext =
      Except.error "'GEMINI_API_KEY'" :=
  missing_key_every_run_fails [("OTHER_KEY", "v")] ([], "") initState Event.clickNext
    (by decide)

/-! ## Claim C8 -/

/-- C8: from every state, a script run in which the selected department
differs from the active one executes the reset block (src/app.py
lines 225-233) and ends (via `st.rerun` for a real department, or by
skipping the questionnaire for "Please Select") with question index 0,
an empty ratings map, a cleared submitted flag, and the cached
recommendations list and summary string discarded. -/
theorem dept_change_resets (api : List String × String) (s : AppState) (d : String)
    (hd : d ≠ s.activeDepartment) :
    (runOnce api s (Event.selectDept d)).1.currentQuestionIndex = 0 ∧
    (runOnce api s (Event.selectDept d)).1.ratings = [] ∧
    (runOnce api s (Event.selectDept d)).1.submitted = false ∧
    (runOnce api s (Event.selectDept d)).1.recommendations = [] ∧
    (runOnce api s (Event.selectDept d)).1.summary = "" := by
  have hbeq : (d == s.activeDepartment) = false := by
    simp [hd]
  simp only [runOnce, hbeq]
  by_cases hps : d = "Please Select"
  · simp [hps, questionnaireRun, recBlock, resetFor]
  · have : (d == "Please Select") = false := by simp [hps]
    simp [this, resetFor]

/-- Witness for `dept_change_resets`: a submitted state for Sales with
cached output, then the user selects Marketing. -/
theorem dept_change_resets_witness :
    ("Marketing" ≠ "Sales") ∧
    ((runOnce (["r"], "s")
        { activeDepartment := "Sales", currentQuestionIndex := 9,
          ratings := [("q", 4)], submitted := true,
          lastSubmittedDepartment := some "Sales",
          lastSubmittedRatings := [("q", 4)],
          recommendations := ["old rec"], summary := "old summary" }
        (Event.selectDept "Marketing")).1.currentQuestionIndex = 0 ∧
      (runOnce (["r"], "s")
        { activeDepartment := "Sales", currentQuestionIndex := 9,
          ratings := [("q", 4)], submitted := true,
          lastSubmittedDepartment := some "Sales",
          lastSubmittedRatings := [("q", 4)],
          recommendations := ["old rec"], summary := "old summary" }
        (Event.selectDept "Marketing")).1.ratings = [] ∧
      (runOnce (["r"], "s")
        { activeDepartment := "Sales", currentQuestionIndex := 9,
          ratings := [("q", 4)], submitted := true,
          lastSubmittedDepartment := some "Sales",
          lastSubmittedRatings := [("q", 4)],
          recommendations := ["old rec"], summary := "old summary" }
        (Event.selectDept "Marketing")).1.submitted = false ∧
      (runOnce (["r"], "s")
        { activeDepartment := "Sales", currentQuestionIndex := 9,
          ratings := [("q", 4)], submitted := true,
          lastSubmittedDepartment := some "Sales",
          lastSubmittedRatings := [("q", 4)],
          recommendations := ["old rec"], summary := "old summary" }
        (Event.selectDept "Marketing")).1.recommendations = [] ∧
      (runOnce (["r"], "s")
        { activeDepartment := "Sales", currentQuestionIndex := 9,
          ratings := [("q", 4)], submitted := true,
          lastSubmittedDepartment := some "Sales",
          lastSubmittedRatings := [("q", 4)],
          recommendations := ["old rec"], summary := "old summary" }
        (Event.selectDept "Marketing")).1.summary = "") :=
  ⟨by decide, dept_change_resets (["r"], "s") _ "Marketing" (by decide)⟩

/-! ## Ratings dictionary lemmas -/

theorem lookupRating_nil (q : String) : lookupRating [] q = none := rfl

theorem lookupRating_cons (p : String × Nat) (r : List (String × Nat)) (q : String) :
    lookupRating (p :: r) q = if p.1 == q then some p.2 else lookupRating r q := by
  by_cases hp : (p.1 == q) = true
  · simp [lookupRating, List.find?_cons_of_pos, hp]
  · simp only [Bool.not_eq_true] at hp
    simp [lookupRating, List.find?_cons_of_neg, hp]

theorem lookup_isSome_iff_mem (r : List (String × Nat)) (q : String) :
    (lookupRating r q).isSome ↔ q ∈ r.map Prod.fst := by
  induction r with
  | nil => simp [lookupRating]
  | cons p r ih =>
    rw [lookupRating_cons, List.map_cons]
    by_cases hp : p.1 = q
    · simp [hp]
    · have hb : (p.1 == q) = false := by simp [hp]
      rw [hb]
      simp only [Bool.false_eq_true, if_false, List.mem_cons]
      rw [ih]
      constructor
      · exact fun h => Or.inr h
      · rintro (h | h)
        · exact absurd h.symm hp
        · exact h

theorem any_key_eq_isSome (r : List (String × Nat)) (q : String) :
    r.any (fun p => p.1 == q) = (lookupRating r q).isSome := by
  induction r with
  | nil => rfl
  | cons p r ih =>
    rw [List.any_cons, lookupRating_cons]
    by_cases hp : (p.1 == q) = true
    · rw [hp]
      simp
    · simp only [Bool.not_eq_true] at hp
      rw [hp]
      simp [ih]

theorem lookup_map_update_ne (r : List (String × Nat)) (q q' : String) (v : Nat)
    (h : q' ≠ q) :
    lookupRating (r.map fun p => if p.1 == q then (q, v) else p) q'
      = lookupRating r q' := by
  induction r with
  | nil => rfl
  | cons p r ih =>
    rw [List.map_cons, lookupRating_cons, lookupRating_cons]
    by_cases hp : (p.1 == q) = true
    · rw [if_pos hp]
      have h1 : ((q, v).1 == q') = false := by
        simp
        exact Ne.symm h
      have h2 : (p.1 == q') = false := by
        simp
        rw [beq_iff_eq.mp hp]
        exact Ne.symm h
      rw [h1, h2]
      simp only [Bool.false_eq_true, if_false]
      exact ih
    · rw [if_neg hp]
      by_cases hq : (p.1 == q') = true
      · rw [hq]
        simp
      · simp only [Bool.not_eq_true] at hq
        rw [hq]
        simp only [Bool.false_eq_true, if_false]
        exact ih

theorem lookup_append_single_ne (r : List (String × Nat)) (q q' : String) (v : Nat)
    (h : q' ≠ q) :
    lookupRating (r ++ [(q, v)]) q' = lookupRating r q' := by
  induction r with
  | nil =>
    rw [List.nil_append, lookupRating_cons]
    have h1 : ((q, v).1 == q') = false := by
      simp
      exact Ne.symm h
    rw [h1]
    simp [lookupRating]
  | cons p r ih =>
    rw [List.cons_append, lookupRating_cons, lookupRating_cons]
    by_cases hq : (p.1 == q') = true
    · rw [hq]
      simp
    · simp only [Bool.not_eq_true] at hq
      rw [hq]
      simp only [Bool.false_eq_true, if_false]
      exact ih

theorem lookupRating_setRating_self (r : List (String × Nat)) (q : String) (v : Nat) :
    lookupRating (setRating r q v) q = some v := by
  unfold setRating
  by_cases hany : r.any (fun p => p.1 == q) = true
  · rw [if_pos hany]
    induction r with
    | nil => simp at hany
    | cons p r ih =>
      rw [List.map_cons]
      by_cases hp : (p.1 == q) = true
      · rw [if_pos hp, lookupRating_cons]
        simp
      · rw [if_neg hp, lookupRating_cons]
        simp only [Bool.not_eq_true] at hp
        rw [List.any_cons] at hany
        rw [hp] at hany
        simp only [Bool.false_or] at hany
        rw [hp]
        simp only [Bool.false_eq_true, if_false]
        exact ih hany
  · rw [if_neg hany]
    simp only [Bool.not_eq_true] at hany
    induction r with
    | nil =>
      rw [List.nil_append, lookupRating_cons]
      simp
    | cons p r ih =>
      rw [List.cons_append, lookupRating_cons]
      rw [List.any_cons] at hany
      simp only [Bool.or_eq_false_iff] at hany
      rw [hany.1]
      simp only [Bool.false_eq_true, if_false]
      exact ih hany.2

theorem lookupRating_setRating_ne (r : List (String × Nat)) (q q' : String) (v : Nat)
    (h : q' ≠ q) : lookupRating (setRating r q v) q' = lookupRating r q' := by
  unfold setRating
  split
  · exact lookup_map_update_ne r q q' v h
  · exact lookup_append_single_ne r q q' v h

theorem setRating_keys (r : List (String × Nat)) (q : String) (v : Nat) :
    (setRating r q v).map Prod.fst =
      if q ∈ r.map Prod.fst then r.map Prod.fst else r.map Prod.fst ++ [q] := by
  unfold setRating
  by_cases hany : r.any (fun p => p.1 == q) = true
  · have hmem : q ∈ r.map Prod.fst := by
      rw [← lookup_isSome_iff_mem]
      rw [← any_key_eq_isSome]
      exact hany
    rw [if_pos hany, if_pos hmem, List.map_map]
    apply List.map_congr_left
    intro p _
    by_cases hp : p.1 = q
    · simp [hp]
    · simp [hp]
  · have hmem : q ∉ r.map Prod.fst := by
      intro hq
      rw [← lookup_isSome_iff_mem] at hq
      rw [← any_key_eq_isSome] at hq
      exact hany hq
    rw [if_neg hany, if_neg hmem]
    simp

theorem mem_setRating (r : List (String × Nat)) (q : String) (v : Nat)
    (p : String × Nat) (hp : p ∈ setRating r q v) : p ∈ r ∨ p = (q, v) := by
  unfold setRating at hp
  split at hp
  · rcases List.mem_map.mp hp with ⟨p', hp', heq⟩
    by_cases hq : (p'.1 == q) = true
    · rw [if_pos hq] at heq
      exact Or.inr heq.symm
    · rw [if_neg hq] at heq
      exact Or.inl (heq ▸ hp')
  · rcases List.mem_append.mp hp with h | h
    · exact Or.inl h
    · exact Or.inr (List.mem_singleton.mp h)

theorem getRating_eq_getD (r : List (String × Nat)) (q : String) (d : Nat) :
    getRating r q d = (lookupRating r q).getD d := by
  unfold getRating lookupRating
  cases r.find? (fun p => p.1 == q) <;> rfl

theorem lookup_set_default_preserves (r : List (String × Nat)) (q q' : String) (v : Nat)
    (h : lookupRating r q' = some v) :
    lookupRating (setRating r q (getRating r q 3)) q' = some v := by
  by_cases hq : q' = q
  · subst hq
    rw [lookupRating_setRating_self, getRating_eq_getD, h]
    rfl
  · rw [lookupRating_setRating_ne r q q' _ hq]
    exact h

theorem lookup_set_default_values (r : List (String × Nat)) (q q' : String) (v : Nat)
    (h : lookupRating (setRating r q (getRating r q 3)) q' = some v) :
    v = 3 ∨ lookupRating r q' = some v := by
  by_cases hq : q' = q
  · subst hq
    rw [lookupRating_setRating_self, getRating_eq_getD] at h
    cases hl : lookupRating r q' with
    | none =>
      rw [hl] at h
      left
      simpa using h.symm
    | some w =>
      rw [hl] at h
      right
      simpa using h
  · rw [lookupRating_setRating_ne r q q' _ hq] at h
    exact Or.inr h

/-! ## Question bank lemmas -/

theorem questionsFor_nodup (d : String) : (questionsFor d).Nodup := by
  unfold questionsFor
  cases h : questions.find? (fun p => p.1 == d) with
  | none => exact List.nodup_nil
  | some p =>
    have hp : p ∈ questions := List.mem_of_find?_eq_some h
    have hall : ∀ p ∈ questions, p.2.Nodup := by decide
    exact hall p hp

theorem questionsFor_real_length (d : String) (hd : d ∈ departments)
    (hps : d ≠ "Please Select") : (questionsFor d).length = 10 := by
  simp only [departments, List.mem_cons, List.not_mem_nil, or_false] at hd
  rcases hd with h | h | h | h | h | h <;> first
    | exact absurd h hps
    | (subst h; rfl)

/-! ## Shape of a single script run in each scenario -/

theorem recBlock_not_submitted (api : List String × String) (s : AppState)
    (h : s.submitted = false) : recBlock api s = (s, false) := by
  simp [recBlock, h]

theorem recBlock_core_fields (api : List String × String) (s : AppState) :
    (recBlock api s).1.ratings = s.ratings ∧
    (recBlock api s).1.currentQuestionIndex = s.currentQuestionIndex ∧
    (recBlock api s).1.submitted = s.submitted ∧
    (recBlock api s).1.activeDepartment = s.activeDepartment ∧
    (recBlock api s).1.lastSubmittedDepartment = s.lastSubmittedDepartment ∧
    (recBlock api s).1.lastSubmittedRatings = s.lastSubmittedRatings := by
  unfold recBlock
  split
  · split
    · exact ⟨rfl, rfl, rfl, rfl, rfl, rfl⟩
    · exact ⟨rfl, rfl, rfl, rfl, rfl, rfl⟩
  · exact ⟨rfl, rfl, rfl, rfl, rfl, rfl⟩

theorem runOnce_noEvent_answering (api : List String × String) (s : AppState)
    (hsub : s.submitted = false)
    (hps : s.activeDepartment ≠ "Please Select")
    (hidx : s.currentQuestionIndex < (questionsFor s.activeDepartment).length) :
    runOnce api s Event.noEvent = (writeBackDefault s, false) := by
  have hb : (s.activeDepartment == s.activeDepartment) = true := by simp
  have hp : (s.activeDepartment == "Please Select") = false := by simp [hps]
  have hcl : ¬ s.currentQuestionIndex ≥ (questionsFor s.activeDepartment).length :=
    Nat.not_le.mpr hidx
  simp only [runOnce, hb, if_true, questionnaireRun, hp, Bool.false_eq_true, if_false,
    hsub, hcl, ite_self, writeBackDefault]
  exact recBlock_not_submitted api _ rfl

theorem runOnce_moveSlider_answering (api : List String × String) (s : AppState) (v : Nat)
    (hsub : s.submitted = false)
    (hps : s.activeDepartment ≠ "Please Select")
    (hidx : s.currentQuestionIndex < (questionsFor s.activeDepartment).length) :
    runOnce api s (Event.moveSlider v) = (writeBackValue s v, false) := by
  have hb : (s.activeDepartment == s.activeDepartment) = true := by simp
  have hp : (s.activeDepartment == "Please Select") = false := by simp [hps]
  have hcl : ¬ s.currentQuestionIndex ≥ (questionsFor s.activeDepartment).length :=
    Nat.not_le.mpr hidx
  simp only [runOnce, hb, if_true, questionnaireRun, hp, Bool.false_eq_true, if_false,
    hsub, hcl, ite_self, writeBackValue]
  exact recBlock_not_submitted api _ rfl

theorem runOnce_selectSame_answering (api : List String × String) (s : AppState)
    (hsub : s.submitted = false)
    (hps : s.activeDepartment ≠ "Please Select")
    (hidx : s.currentQuestionIndex < (questionsFor s.activeDepartment).length) :
    runOnce api s (Event.selectDept s.activeDepartment) = (writeBackDefault s, false) := by
  have hb : (s.activeDepartment == s.activeDepartment) = true := by simp
  have hp : (s.activeDepartment == "Please Select") = false := by simp [hps]
  have hcl : ¬ s.currentQuestionIndex ≥ (questionsFor s.activeDepartment).length :=
    Nat.not_le.mpr hidx
  simp only [runOnce, hb, if_true, questionnaireRun, hp, Bool.false_eq_true, if_false,
    hsub, hcl, ite_self, writeBackDefault]
  exact recBlock_not_submitted api _ rfl

theorem runOnce_clickNext_enabled (api : List String × String) (s : AppState)
    (hsub : s.submitted = false)
    (hps : s.activeDepartment ≠ "Please Select")
    (hidx : s.currentQuestionIndex < (questionsFor s.activeDepartment).length)
    (hn : s.currentQuestionIndex < (questionsFor s.activeDepartment).length - 1) :
    runOnce api s Event.clickNext =
      ({ writeBackDefault s with currentQuestionIndex := s.currentQuestionIndex + 1 }, true) := by
  have hb : (s.activeDepartment == s.activeDepartment) = true := by simp
  have hp : (s.activeDepartment == "Please Select") = false := by simp [hps]
  have hcl : ¬ s.currentQuestionIndex ≥ (questionsFor s.activeDepartment).length :=
    Nat.not_le.mpr hidx
  simp only [runOnce, hb, if_true, questionnaireRun, hp, Bool.false_eq_true, if_false,
    hsub, hcl, hn, if_true, writeBackDefault]

theorem runOnce_clickNext_last (api : List String × String) (s : AppState)
    (hsub : s.submitted = false)
    (hps : s.activeDepartment ≠ "Please Select")
    (hidx : s.currentQuestionIndex < (questionsFor s.activeDepartment).length)
    (hn : ¬ s.currentQuestionIndex < (questionsFor s.activeDepartment).length - 1) :
    runOnce api s Event.clickNext = (writeBackDefault s, false) := by
  have hb : (s.activeDepartment == s.activeDepartment) = true := by simp
  have hp : (s.activeDepartment == "Please Select") = false := by simp [hps]
  have hcl : ¬ s.currentQuestionIndex ≥ (questionsFor s.activeDepartment).length :=
    Nat.not_le.mpr hidx
  simp only [runOnce, hb, if_true, questionnaireRun, hp, Bool.false_eq_true, if_false,
    hsub, hcl, hn, writeBackDefault]
  exact recBlock_not_submitted api _ rfl

theorem runOnce_clickPrev_enabled (api : List String × String) (s : AppState)
    (hsub : s.submitted = false)
    (hps : s.activeDepartment ≠ "Please Select")
    (hidx : s.currentQuestionIndex < (questionsFor s.activeDepartment).length)
    (hn : s.currentQuestionIndex < (questionsFor s.activeDepartment).length - 1)
    (h0 : s.currentQuestionIndex > 0) :
    runOnce api s Event.clickPrev =
      ({ writeBackDefault s with currentQuestionIndex := s.currentQuestionIndex - 1 }, true) := by
  have hb : (s.activeDepartment == s.activeDepartment) = true := by simp
  have hp : (s.activeDepartment == "Please Select") = false := by simp [hps]
  have hcl : ¬ s.currentQuestionIndex ≥ (questionsFor s.activeDepartment).length :=
    Nat.not_le.mpr hidx
  simp only [runOnce, hb, if_true, questionnaireRun, hp, Bool.false_eq_true, if_false,
    hsub, hcl, hn, if_true, h0, writeBackDefault]

theorem runOnce_clickPrev_disabled (api : List String × String) (s : AppState)
    (hsub : s.submitted = false)
    (hps : s.activeDepartment ≠ "Please Select")
    (hidx : s.currentQuestionIndex < (questionsFor s.activeDepartment).length)
    (h : s.currentQuestionIndex = 0 ∨
      ¬ s.currentQuestionIndex < (questionsFor s.activeDepartment).length - 1) :
    runOnce api s Event.clickPrev = (writeBackDefault s, false) := by
  have hb : (s.activeDepartment == s.activeDepartment) = true := by simp
  have hp : (s.activeDepartment == "Please Select") = false := by simp [hps]
  have hcl : ¬ s.currentQuestionIndex ≥ (questionsFor s.activeDepartment).length :=
    Nat.not_le.mpr hidx
  rcases h with h | h
  · by_cases hn : s.currentQuestionIndex < (questionsFor s.activeDepartment).length - 1
    · have h0 : ¬ s.currentQuestionIndex > 0 := by omega
      simp only [runOnce, hb, if_true, questionnaireRun, hp, Bool.false_eq_true, if_false,
        hsub, hcl, hn, if_true, h0, writeBackDefault]
      exact recBlock_not_submitted api _ rfl
    · simp only [runOnce, hb, if_true, questionnaireRun, hp, Bool.false_eq_true, if_false,
        hsub, hcl, hn, writeBackDefault]
      exact recBlock_not_submitted api _ rfl
  · simp only [runOnce, hb, if_true, questionnaireRun, hp, Bool.false_eq_true, if_false,
      hsub, hcl, h, writeBackDefault]
    exact recBlock_not_submitted api _ rfl

theorem runOnce_clickSubmit_last (api : List String × String) (s : AppState)
    (hsub : s.submitted = false)
    (hps : s.activeDepartment ≠ "Please Select")
    (hidx : s.currentQuestionIndex < (questionsFor s.activeDepartment).length)
    (hn : ¬ s.currentQuestionIndex < (questionsFor s.activeDepartment).length - 1) :
    runOnce api s Event.clickSubmit =
      ({ writeBackDefault s with
          submitted := true
          lastSubmittedDepartment := some s.activeDepartment
          lastSubmittedRatings := (writeBackDefault s).ratings
          recommendations := []
          summary := "" }, true) := by
  have hb : (s.activeDepartment == s.activeDepartment) = true := by simp
  have hp : (s.activeDepartment == "Please Select") = false := by simp [hps]
  have hcl : ¬ s.currentQuestionIndex ≥ (questionsFor s.activeDepartment).length :=
    Nat.not_le.mpr hidx
  simp only [runOnce, hb, if_true, questionnaireRun, hp, Bool.false_eq_true, if_false,
    hsub, hcl, hn, writeBackDefault]

theorem runOnce_clickSubmit_notlast (api : List String × String) (s : AppState)
    (hsub : s.submitted = false)
    (hps : s.activeDepartment ≠ "Please Select")
    (hidx : s.currentQuestionIndex < (questionsFor s.activeDepartment).length)
    (hn : s.currentQuestionIndex < (questionsFor s.activeDepartment).length - 1) :
    runOnce api s Event.clickSubmit = (writeBackDefault s, false) := by
  have hb : (s.activeDepartment == s.activeDepartment) = true := by simp
  have hp : (s.activeDepartment == "Please Select") = false := by simp [hps]
  have hcl : ¬ s.currentQuestionIndex ≥ (questionsFor s.activeDepartment).length :=
    Nat.not_le.mpr hidx
  simp only [runOnce, hb, if_true, questionnaireRun, hp, Bool.false_eq_true, if_false,
    hsub, hcl, hn, if_true, writeBackDefault]
  exact recBlock_not_submitted api _ rfl

theorem runOnce_skip (api : List String × String) (s : AppState) (e : Event)
    (hsel : (match e with | Event.selectDept d => d | _ => s.activeDepartment)
      = s.activeDepartment)
    (h : s.activeDepartment = "Please Select" ∨ s.submitted = true) :
    runOnce api s e = recBlock api s := by
  have hb : (s.activeDepartment == s.activeDepartment) = true := by simp
  simp only [runOnce, hsel, hb, if_true]
  rcases h with h | h
  · have hv : (s.activeDepartment == "Please Select") = true := by simp [h]
    simp [questionnaireRun, hv]
  · by_cases hps : s.activeDepartment = "Please Select"
    · have hv : (s.activeDepartment == "Please Select") = true := by simp [hps]
      simp [questionnaireRun, hv]
    · have hf : (s.activeDepartment == "Please Select") = false := by simp [hps]
      simp [questionnaireRun, hf, h]

theorem runOnce_selectPS_new (api : List String × String) (s : AppState)
    (hd : s.activeDepartment ≠ "Please Select") :
    runOnce api s (Event.selectDept "Please Select") =
      (resetFor s "Please Select", false) := by
  have hb : ("Please Select" == s.activeDepartment) = false := by
    simp
    exact Ne.symm hd
  simp only [runOnce, hb, Bool.false_eq_true, if_false]
  simp [questionnaireRun]
  exact recBlock_not_submitted api _ rfl

theorem runOnce_selectReal_new (api : List String × String) (s : AppState) (d : String)
    (hd : d ≠ s.activeDepartment) (hps : d ≠ "Please Select") :
    runOnce api s (Event.selectDept d) = (resetFor s d, true) := by
  have hb : (d == s.activeDepartment) = false := by simp [hd]
  have hp : (d == "Please Select") = false := by simp [hps]
  simp only [runOnce, hb, Bool.false_eq_true, if_false, hp]

/-! ## Step composition lemmas -/

theorem step_of_one (api : List String × String) (s : AppState) (e : Event)
    (s1 : AppState) (h : runOnce api s e = (s1, false)) : step api s e = s1 := by
  simp [step, h]

theorem step_of_two (api : List String × String) (s : AppState) (e : Event)
    (s1 s2 : AppState) (h1 : runOnce api s e = (s1, true))
    (h2 : runOnce api s1 Event.noEvent = (s2, false)) : step api s e = s2 := by
  simp [step, h1, h2]

theorem recBlock_cases (api : List String × String) (s : AppState) :
    recBlock api s = (s, false) ∨
    recBlock api s = ({ s with recommendations := api.1, summary := api.2 }, true) := by
  unfold recBlock
  split
  · split
    · right
      rfl
    · left
      rfl
  · left
    rfl

theorem lookup_mem (r : List (String × Nat)) (q : String) (v : Nat)
    (h : lookupRating r q = some v) : ∃ p ∈ r, p.2 = v := by
  unfold lookupRating at h
  cases hf : r.find? (fun p => p.1 == q) with
  | none => rw [hf] at h; cases h
  | some p =>
    rw [hf] at h
    exact ⟨p, List.mem_of_find?_eq_some hf, by simpa using h⟩

theorem step_skip_core (api : List String × String) (s : AppState) (e : Event)
    (hsel : (match e with | Event.selectDept d => d | _ => s.activeDepartment)
      = s.activeDepartment)
    (h : s.activeDepartment = "Please Select" ∨ s.submitted = true) :
    (step api s e).ratings = s.ratings ∧
    (step api s e).currentQuestionIndex = s.currentQuestionIndex ∧
    (step api s e).submitted = s.submitted ∧
    (step api s e).activeDepartment = s.activeDepartment ∧
    (step api s e).lastSubmittedDepartment = s.lastSubmittedDepartment ∧
    (step api s e).lastSubmittedRatings = s.lastSubmittedRatings := by
  have h1 := runOnce_skip api s e hsel h
  rcases recBlock_cases api s with hc | hc <;> rw [hc] at h1
  · rw [step_of_one api s e s h1]
    exact ⟨rfl, rfl, rfl, rfl, rfl, rfl⟩
  · have h2 : runOnce api { s with recommendations := api.1, summary := api.2 }
        Event.noEvent
        = recBlock api { s with recommendations := api.1, summary := api.2 } :=
      runOnce_skip api _ Event.noEvent rfl h
    rcases recBlock_cases api { s with recommendations := api.1, summary := api.2 }
      with hc2 | hc2 <;> rw [hc2] at h2
    · rw [step_of_two api s e _ _ h1 h2]
      exact ⟨rfl, rfl, rfl, rfl, rfl, rfl⟩
    · have hcollapse :
          ({ s with recommendations := api.1, summary := api.2 } : AppState)
            = { ({ s with recommendations := api.1, summary := api.2 } : AppState) with
                recommendations := api.1, summary := api.2 } := rfl
      simp only [step, h1, h2, ← hcollapse]
      simp

theorem step_noEvent_answering (api : List String × String) (s : AppState)
    (hsub : s.submitted = false) (hps : s.activeDepartment ≠ "Please Select")
    (hidx : s.currentQuestionIndex < (questionsFor s.activeDepartment).length) :
    step api s Event.noEvent = writeBackDefault s :=
  step_of_one _ _ _ _ (runOnce_noEvent_answering api s hsub hps hidx)

theorem step_moveSlider_answering (api : List String × String) (s : AppState) (v : Nat)
    (hsub : s.submitted = false) (hps : s.activeDepartment ≠ "Please Select")
    (hidx : s.currentQuestionIndex < (questionsFor s.activeDepartment).length) :
    step api s (Event.moveSlider v) = writeBackValue s v :=
  step_of_one _ _ _ _ (runOnce_moveSlider_answering api s v hsub hps hidx)

theorem step_selectSame_answering (api : List String × String) (s : AppState)
    (hsub : s.submitted = false) (hps : s.activeDepartment ≠ "Please Select")
    (hidx : s.currentQuestionIndex < (questionsFor s.activeDepartment).length) :
    step api s (Event.selectDept s.activeDepartment) = writeBackDefault s :=
  step_of_one _ _ _ _ (runOnce_selectSame_answering api s hsub hps hidx)

theorem step_clickNext_last (api : List String × String) (s : AppState)
    (hsub : s.submitted = false) (hps : s.activeDepartment ≠ "Please Select")
    (hidx : s.currentQuestionIndex < (questionsFor s.activeDepartment).length)
    (hn : ¬ s.currentQuestionIndex < (questionsFor s.activeDepartment).length - 1) :
    step api s Event.clickNext = writeBackDefault s :=
  step_of_one _ _ _ _ (runOnce_clickNext_last api s hsub hps hidx hn)

theorem step_clickPrev_disabled (api : List String × String) (s : AppState)
    (hsub : s.submitted = false) (hps : s.activeDepartment ≠ "Please Select")
    (hidx : s.currentQuestionIndex < (questionsFor s.activeDepartment).length)
    (h : s.currentQuestionIndex = 0 ∨
      ¬ s.currentQuestionIndex < (questionsFor s.activeDepartment).length - 1) :
    step api s Event.clickPrev = writeBackDefault s :=
  step_of_one _ _ _ _ (runOnce_clickPrev_disabled api s hsub hps hidx h)

theorem step_clickSubmit_notlast (api : List String × String) (s : AppState)
    (hsub : s.submitted = false) (hps : s.activeDepartment ≠ "Please Select")
    (hidx : s.currentQuestionIndex < (questionsFor s.activeDepartment).length)
    (hn : s.currentQuestionIndex < (questionsFor s.activeDepartment).length - 1) :
    step api s Event.clickSubmit = writeBackDefault s :=
  step_of_one _ _ _ _ (runOnce_clickSubmit_notlast api s hsub hps hidx hn)

theorem step_clickNext_enabled (api : List String × String) (s : AppState)
    (hsub : s.submitted = false) (hps : s.activeDepartment ≠ "Please Select")
    (hidx : s.currentQuestionIndex < (questionsFor s.activeDepartment).length)
    (hn : s.currentQuestionIndex < (questionsFor s.activeDepartment).length - 1) :
    step api s Event.clickNext =
      writeBackDefault
        { writeBackDefault s with currentQuestionIndex := s.currentQuestionIndex + 1 } := by
  apply step_of_two _ _ _ _ _ (runOnce_clickNext_enabled api s hsub hps hidx hn)
  exact runOnce_noEvent_answering api _ hsub hps (by simp [writeBackDefault]; omega)

theorem step_clickPrev_enabled (api : List String × String) (s : AppState)
    (hsub : s.submitted = false) (hps : s.activeDepartment ≠ "Please Select")
    (hidx : s.currentQuestionIndex < (questionsFor s.activeDepartment).length)
    (hn : s.currentQuestionIndex < (questionsFor s.activeDepartment).length - 1)
    (h0 : s.currentQuestionIndex > 0) :
    step api s Event.clickPrev =
      writeBackDefault
        { writeBackDefault s with currentQuestionIndex := s.currentQuestionIndex - 1 } := by
  apply step_of_two _ _ _ _ _ (runOnce_clickPrev_enabled api s hsub hps hidx hn h0)
  exact runOnce_noEvent_answering api _ hsub hps (by simp [writeBackDefault]; omega)

theorem step_selectPS_new (api : List String × String) (s : AppState)
    (hd : s.activeDepartment ≠ "Please Select") :
    step api s (Event.selectDept "Please Select") = resetFor s "Please Select" :=
  step_of_one _ _ _ _ (runOnce_selectPS_new api s hd)

theorem step_selectReal_new (api : List String × String) (s : AppState) (d : String)
    (hd : d ≠ s.activeDepartment) (hps : d ≠ "Please Select")
    (hlen : 0 < (questionsFor d).length) :
    step api s (Event.selectDept d) = writeBackDefault (resetFor s d) := by
  apply step_of_two _ _ _ _ _ (runOnce_selectReal_new api s d hd hps)
  exact runOnce_noEvent_answering api _ rfl hps hlen

theorem step_clickSubmit_last (api : List String × String) (s : AppState)
    (hsub : s.submitted = false) (hps : s.activeDepartment ≠ "Please Select")
    (hidx : s.currentQuestionIndex < (questionsFor s.activeDepartment).length)
    (hn : ¬ s.currentQuestionIndex < (questionsFor s.activeDepartment).length - 1) :
    step api s Event.clickSubmit =
      { writeBackDefault s with
          submitted := true
          lastSubmittedDepartment := some s.activeDepartment
          lastSubmittedRatings := (writeBackDefault s).ratings
          recommendations := api.1
          summary := api.2 } := by
  have h1 := runOnce_clickSubmit_last api s hsub hps hidx hn
  have h2 : runOnce api
      ({ writeBackDefault s with
          submitted := true
          lastSubmittedDepartment := some s.activeDepartment
          lastSubmittedRatings := (writeBackDefault s).ratings
          recommendations := []
          summary := "" }) Event.noEvent
      = ({ writeBackDefault s with
          submitted := true
          lastSubmittedDepartment := some s.activeDepartment
          lastSubmittedRatings := (writeBackDefault s).ratings
          recommendations := api.1
          summary := api.2 }, true) := by
    rw [runOnce_skip api _ Event.noEvent rfl (Or.inr rfl)]
    simp [recBlock]
  have h3 : runOnce api
      ({ writeBackDefault s with
          submitted := true
          lastSubmittedDepartment := some s.activeDepartment
          lastSubmittedRatings := (writeBackDefault s).ratings
          recommendations := api.1
          summary := api.2 }) Event.noEvent
      = recBlock api
        ({ writeBackDefault s with
          submitted := true
          lastSubmittedDepartment := some s.activeDepartment
          lastSubmittedRatings := (writeBackDefault s).ratings
          recommendations := api.1
          summary := api.2 }) :=
    runOnce_skip api _ Event.noEvent rfl (Or.inr rfl)
  simp only [step, h1, h2, h3]
  rcases recBlock_cases api
      ({ writeBackDefault s with
          submitted := true
          lastSubmittedDepartment := some s.activeDepartment
          lastSubmittedRatings := (writeBackDefault s).ratings
          recommendations := api.1
          summary := api.2 }) with hc | hc <;> rw [hc] <;> simp

/-! ## Invariant preservation -/

theorem getElem_not_mem_take (qs : List String) (k : Nat) (hk : k < qs.length)
    (hnd : qs.Nodup) : qs[k] ∉ qs.take k := by
  intro hmem
  have hd : qs[k] ∈ qs.drop k := by
    have h0 : 0 < (qs.drop k).length := by simp; omega
    have he : (qs.drop k)[0] = qs[k] := by
      rw [List.getElem_drop]
      simp
    rw [← he]
    exact List.getElem_mem h0
  have hsplit := List.take_append_drop k qs
  rw [← hsplit] at hnd
  rcases List.nodup_append.mp hnd with ⟨-, -, hdisj⟩
  exact hdisj hmem hd

theorem take_one_eq (qs : List String) (h : 0 < qs.length) :
    qs.take 1 = [qs.getD 0 ""] := by
  cases qs with
  | nil => simp at h
  | cons a t => simp [List.take]

theorem current_mem_keys (qs : List String) (r : List (String × Nat)) (i k : Nat)
    (hkeys : r.map Prod.fst = qs.take k) (hik : i < k) (hkl : k ≤ qs.length) :
    qs.getD i "" ∈ r.map Prod.fst := by
  have hil : i < qs.length := lt_of_lt_of_le hik hkl
  rw [hkeys, List.getD_eq_getElem qs "" hil]
  have hlt : i < (qs.take k).length := by simp; omega
  have he : (qs.take k)[i] = qs[i] := List.getElem_take qs
  rw [← he]
  exact List.getElem_mem hlt

theorem getRating_mem_values (r : List (String × Nat)) (q : String)
    (h : q ∈ r.map Prod.fst) : ∃ p ∈ r, getRating r q 3 = p.2 := by
  have hs := (lookup_isSome_iff_mem r q).mpr h
  cases hl : lookupRating r q with
  | none => rw [hl] at hs; cases hs
  | some w =>
    rcases lookup_mem r q w hl with ⟨p, hp, hv⟩
    refine ⟨p, hp, ?_⟩
    rw [getRating_eq_getD, hl]
    exact hv.symm

theorem writeBackDefault_keys (s : AppState)
    (hmem : (questionsFor s.activeDepartment).getD s.currentQuestionIndex ""
      ∈ s.ratings.map Prod.fst) :
    (writeBackDefault s).ratings.map Prod.fst = s.ratings.map Prod.fst := by
  simp only [writeBackDefault]
  rw [setRating_keys, if_pos hmem]

theorem writeBackDefault_values (s : AppState)
    (hmem : (questionsFor s.activeDepartment).getD s.currentQuestionIndex ""
      ∈ s.ratings.map Prod.fst)
    (hvals : ∀ p ∈ s.ratings, 1 ≤ p.2 ∧ p.2 ≤ 5) :
    ∀ p ∈ (writeBackDefault s).ratings, 1 ≤ p.2 ∧ p.2 ≤ 5 := by
  intro p hp
  rcases mem_setRating _ _ _ p hp with h | h
  · exact hvals p h
  · rcases getRating_mem_values s.ratings _ hmem with ⟨p', hp', hv⟩
    rw [h]
    simp only
    rw [hv]
    exact hvals p' hp'

theorem StateInv_writeBackDefault (s : AppState) (hInv : StateInv s)
    (hsub : s.submitted = false) (hps : s.activeDepartment ≠ "Please Select") :
    StateInv (writeBackDefault s) := by
  obtain ⟨hdep, hans, hvals, hsubm⟩ := hInv
  rcases hans hsub hps with ⟨k, hkeys, hik, hkl⟩
  have hmem := current_mem_keys _ _ _ _ hkeys hik hkl
  refine ⟨hdep, ?_, writeBackDefault_values s hmem hvals, ?_⟩
  · intro _ _
    exact ⟨k, (writeBackDefault_keys s hmem).trans hkeys, hik, hkl⟩
  · intro hfalse
    rw [show (writeBackDefault s).submitted = s.submitted from rfl, hsub] at hfalse
    cases hfalse

theorem StateInv_writeBackValue (s : AppState) (v : Nat) (hInv : StateInv s)
    (hsub : s.submitted = false) (hps : s.activeDepartment ≠ "Please Select")
    (hv1 : 1 ≤ v) (hv5 : v ≤ 5) :
    StateInv (writeBackValue s v) := by
  obtain ⟨hdep, hans, hvals, hsubm⟩ := hInv
  rcases hans hsub hps with ⟨k, hkeys, hik, hkl⟩
  have hmem := current_mem_keys _ _ _ _ hkeys hik hkl
  refine ⟨hdep, ?_, ?_, ?_⟩
  · intro _ _
    refine ⟨k, ?_, hik, hkl⟩
    have : (writeBackValue s v).ratings.map Prod.fst = s.ratings.map Prod.fst := by
      simp only [writeBackValue]
      rw [setRating_keys, if_pos hmem]
    exact this.trans hkeys
  · intro p hp
    rcases mem_setRating _ _ _ p hp with h | h
    · exact hvals p h
    · rw [h]
      exact ⟨hv1, hv5⟩
  · intro hfalse
    rw [show (writeBackValue s v).submitted = s.submitted from rfl, hsub] at hfalse
    cases hfalse

theorem getRating_not_mem (r : List (String × Nat)) (q : String)
    (h : q ∉ r.map Prod.fst) : getRating r q 3 = 3 := by
  rw [getRating_eq_getD]
  cases hl : lookupRating r q with
  | none => rfl
  | some w =>
    exact absurd ((lookup_isSome_iff_mem r q).mp (by rw [hl]; rfl)) h

theorem StateInv_of_core (s t : AppState)
    (hr : t.ratings = s.ratings) (hi : t.currentQuestionIndex = s.currentQuestionIndex)
    (hs : t.submitted = s.submitted) (ha : t.activeDepartment = s.activeDepartment)
    (hld : t.lastSubmittedDepartment = s.lastSubmittedDepartment)
    (hlr : t.lastSubmittedRatings = s.lastSubmittedRatings)
    (hInv : StateInv s) : StateInv t := by
  unfold StateInv at hInv ⊢
  rw [hr, hi, hs, ha, hld, hlr]
  exact hInv

theorem StateInv_writeBack_generic (t : AppState)
    (hdep : t.activeDepartment ∈ departments)
    (hsub : t.submitted = false) (_hps : t.activeDepartment ≠ "Please Select")
    (k : Nat)
    (hkeys : t.ratings.map Prod.fst = (questionsFor t.activeDepartment).take k)
    (hvals : ∀ p ∈ t.ratings, 1 ≤ p.2 ∧ p.2 ≤ 5)
    (hik : t.currentQuestionIndex ≤ k)
    (hkl : k ≤ (questionsFor t.activeDepartment).length)
    (hit : t.currentQuestionIndex < (questionsFor t.activeDepartment).length) :
    StateInv (writeBackDefault t) := by
  by_cases hik2 : t.currentQuestionIndex < k
  · have hmem := current_mem_keys _ _ _ _ hkeys hik2 hkl
    refine ⟨hdep, ?_, writeBackDefault_values t hmem hvals, ?_⟩
    · intro _ _
      exact ⟨k, (writeBackDefault_keys t hmem).trans hkeys, hik2, hkl⟩
    · intro hfalse
      rw [show (writeBackDefault t).submitted = t.submitted from rfl, hsub] at hfalse
      cases hfalse
  · have hke : t.currentQuestionIndex = k := by omega
    have hklen : k < (questionsFor t.activeDepartment).length := by omega
    have hq : (questionsFor t.activeDepartment).getD t.currentQuestionIndex ""
        = (questionsFor t.activeDepartment)[k] := by
      rw [hke, List.getD_eq_getElem _ "" hklen]
    have hnotmem : (questionsFor t.activeDepartment).getD t.currentQuestionIndex ""
        ∉ t.ratings.map Prod.fst := by
      rw [hkeys, hq]
      exact getElem_not_mem_take _ k hklen (questionsFor_nodup _)
    have hlt2 : t.currentQuestionIndex < k + 1 := by omega
    have hle2 : k + 1 ≤ (questionsFor t.activeDepartment).length := by omega
    refine ⟨hdep, ?_, ?_, ?_⟩
    · intro _ _
      refine ⟨k + 1, ?_, hlt2, hle2⟩
      show (setRating t.ratings _ _).map Prod.fst = _
      rw [setRating_keys, if_neg hnotmem, hkeys, hq]
      exact List.take_concat_get' (questionsFor t.activeDepartment) k hklen
    · intro p hp
      rcases mem_setRating _ _ _ p hp with h | h
      · exact hvals p h
      · rw [h]
        simp only
        rw [getRating_not_mem _ _ hnotmem]
        exact ⟨by omega, by omega⟩
    · intro hfalse
      rw [show (writeBackDefault t).submitted = t.submitted from rfl, hsub] at hfalse
      cases hfalse

theorem StateInv_clickNext (api : List String × String) (s : AppState)
    (hInv : StateInv s) (hsub : s.submitted = false)
    (hps : s.activeDepartment ≠ "Please Select")
    (hn : s.currentQuestionIndex < (questionsFor s.activeDepartment).length - 1) :
    StateInv (step api s Event.clickNext) := by
  obtain ⟨hdep, hans, hvals, hsubm⟩ := hInv
  rcases hans hsub hps with ⟨k, hkeys, hik, hkl⟩
  have hidx : s.currentQuestionIndex < (questionsFor s.activeDepartment).length := by
    omega
  rw [step_clickNext_enabled api s hsub hps hidx hn]
  have hmem := current_mem_keys _ _ _ _ hkeys hik hkl
  have hkeys1 : (writeBackDefault s).ratings.map Prod.fst
      = (questionsFor s.activeDepartment).take k :=
    (writeBackDefault_keys s hmem).trans hkeys
  have hvals1 := writeBackDefault_values s hmem hvals
  have hit : s.currentQuestionIndex + 1 < (questionsFor s.activeDepartment).length := by
    omega
  exact StateInv_writeBack_generic
    { writeBackDefault s with currentQuestionIndex := s.currentQuestionIndex + 1 }
    hdep hsub hps k hkeys1 hvals1 hik hkl hit

theorem StateInv_clickSubmit (api : List String × String) (s : AppState)
    (hInv : StateInv s) (hsub : s.submitted = false)
    (hps : s.activeDepartment ≠ "Please Select")
    (hn : ¬ s.currentQuestionIndex < (questionsFor s.activeDepartment).length - 1) :
    StateInv (step api s Event.clickSubmit) := by
  obtain ⟨hdep, hans, hvals, hsubm⟩ := hInv
  rcases hans hsub hps with ⟨k, hkeys, hik, hkl⟩
  have hidx : s.currentQuestionIndex < (questionsFor s.activeDepartment).length := by
    omega
  rw [step_clickSubmit_last api s hsub hps hidx hn]
  have hmem := current_mem_keys _ _ _ _ hkeys hik hkl
  have hke : k = (questionsFor s.activeDepartment).length := by omega
  have hfull : (writeBackDefault s).ratings.map Prod.fst
      = questionsFor s.activeDepartment := by
    rw [writeBackDefault_keys s hmem, hkeys, hke]
    exact List.take_length _
  have hvals1 := writeBackDefault_values s hmem hvals
  refine ⟨hdep, ?_, hvals1, ?_⟩
  · intro hfalse _
    exact Bool.noConfusion hfalse
  · intro _
    exact ⟨s.activeDepartment, rfl, rfl, hfull, hvals1⟩

theorem StateInv_step (api : List String × String) (s : AppState) (e : Event)
    (hInv : StateInv s) (hval : validEvent e = true) : StateInv (step api s e) := by
  have hdep := hInv.1
  have hans := hInv.2.1
  have hvals := hInv.2.2.1
  cases e with
  | noEvent =>
    by_cases hps : s.activeDepartment = "Please Select"
    · obtain ⟨h1, h2, h3, h4, h5, h6⟩ := step_skip_core api s Event.noEvent rfl (Or.inl hps)
      exact StateInv_of_core s _ h1 h2 h3 h4 h5 h6 hInv
    · cases hsub : s.submitted with
      | true =>
        obtain ⟨h1, h2, h3, h4, h5, h6⟩ :=
          step_skip_core api s Event.noEvent rfl (Or.inr hsub)
        exact StateInv_of_core s _ h1 h2 h3 h4 h5 h6 hInv
      | false =>
        rcases hans hsub hps with ⟨k, hkeys, hik, hkl⟩
        have hidx : s.currentQuestionIndex < (questionsFor s.activeDepartment).length := by
          omega
        rw [step_noEvent_answering api s hsub hps hidx]
        exact StateInv_writeBackDefault s hInv hsub hps
  | moveSlider v =>
    simp only [validEvent, Bool.and_eq_true, decide_eq_true_eq] at hval
    by_cases hps : s.activeDepartment = "Please Select"
    · obtain ⟨h1, h2, h3, h4, h5, h6⟩ :=
        step_skip_core api s (Event.moveSlider v) rfl (Or.inl hps)
      exact StateInv_of_core s _ h1 h2 h3 h4 h5 h6 hInv
    · cases hsub : s.submitted with
      | true =>
        obtain ⟨h1, h2, h3, h4, h5, h6⟩ :=
          step_skip_core api s (Event.moveSlider v) rfl (Or.inr hsub)
        exact StateInv_of_core s _ h1 h2 h3 h4 h5 h6 hInv
      | false =>
        rcases hans hsub hps with ⟨k, hkeys, hik, hkl⟩
        have hidx : s.currentQuestionIndex < (questionsFor s.activeDepartment).length := by
          omega
        rw [step_moveSlider_answering api s v hsub hps hidx]
        exact StateInv_writeBackValue s v hInv hsub hps hval.1 hval.2
  | clickPrev =>
    by_cases hps : s.activeDepartment = "Please Select"
    · obtain ⟨h1, h2, h3, h4, h5, h6⟩ :=
        step_skip_core api s Event.clickPrev rfl (Or.inl hps)
      exact StateInv_of_core s _ h1 h2 h3 h4 h5 h6 hInv
    · cases hsub : s.submitted with
      | true =>
        obtain ⟨h1, h2, h3, h4, h5, h6⟩ :=
          step_skip_core api s Event.clickPrev rfl (Or.inr hsub)
        exact StateInv_of_core s _ h1 h2 h3 h4 h5 h6 hInv
      | false =>
        rcases hans hsub hps with ⟨k, hkeys, hik, hkl⟩
        have hidx : s.currentQuestionIndex < (questionsFor s.activeDepartment).length := by
          omega
        by_cases hn : s.currentQuestionIndex < (questionsFor s.activeDepartment).length - 1
        · by_cases h0 : s.currentQuestionIndex > 0
          · rw [step_clickPrev_enabled api s hsub hps hidx hn h0]
            have hmem := current_mem_keys _ _ _ _ hkeys hik hkl
            have hkeys1 : (writeBackDefault s).ratings.map Prod.fst
                = (questionsFor s.activeDepartment).take k :=
              (writeBackDefault_keys s hmem).trans hkeys
            have hvals1 := writeBackDefault_values s hmem hvals
            have hik2 : s.currentQuestionIndex - 1 ≤ k := by omega
            have hit : s.currentQuestionIndex - 1
                < (questionsFor s.activeDepartment).length := by omega
            exact StateInv_writeBack_generic
              { writeBackDefault s with
                  currentQuestionIndex := s.currentQuestionIndex - 1 }
              hdep hsub hps k hkeys1 hvals1 hik2 hkl hit
          · have h0' : s.currentQuestionIndex = 0 := by omega
            rw [step_clickPrev_disabled api s hsub hps hidx (Or.inl h0')]
            exact StateInv_writeBackDefault s hInv hsub hps
        · rw [step_clickPrev_disabled api s hsub hps hidx (Or.inr hn)]
          exact StateInv_writeBackDefault s hInv hsub hps
  | clickNext =>
    by_cases hps : s.activeDepartment = "Please Select"
    · obtain ⟨h1, h2, h3, h4, h5, h6⟩ :=
        step_skip_core api s Event.clickNext rfl (Or.inl hps)
      exact StateInv_of_core s _ h1 h2 h3 h4 h5 h6 hInv
    · cases hsub : s.submitted with
      | true =>
        obtain ⟨h1, h2, h3, h4, h5, h6⟩ :=
          step_skip_core api s Event.clickNext rfl (Or.inr hsub)
        exact StateInv_of_core s _ h1 h2 h3 h4 h5 h6 hInv
      | false =>
        rcases hans hsub hps with ⟨k, hkeys, hik, hkl⟩
        have hidx : s.currentQuestionIndex < (questionsFor s.activeDepartment).length := by
          omega
        by_cases hn : s.currentQuestionIndex < (questionsFor s.activeDepartment).length - 1
        · exact StateInv_clickNext api s ⟨hdep, hans, hvals, hInv.2.2.2⟩ hsub hps hn
        · rw [step_clickNext_last api s hsub hps hidx hn]
          exact StateInv_writeBackDefault s hInv hsub hps
  | clickSubmit =>
    by_cases hps : s.activeDepartment = "Please Select"
    · obtain ⟨h1, h2, h3, h4, h5, h6⟩ :=
        step_skip_core api s Event.clickSubmit rfl (Or.inl hps)
      exact StateInv_of_core s _ h1 h2 h3 h4 h5 h6 hInv
    · cases hsub : s.submitted with
      | true =>
        obtain ⟨h1, h2, h3, h4, h5, h6⟩ :=
          step_skip_core api s Event.clickSubmit rfl (Or.inr hsub)
        exact StateInv_of_core s _ h1 h2 h3 h4 h5 h6 hInv
      | false =>
        rcases hans hsub hps with ⟨k, hkeys, hik, hkl⟩
        have hidx : s.currentQuestionIndex < (questionsFor s.activeDepartment).length := by
          omega
        by_cases hn : s.currentQuestionIndex < (questionsFor s.activeDepartment).length - 1
        · rw [step_clickSubmit_notlast api s hsub hps hidx hn]
          exact StateInv_writeBackDefault s hInv hsub hps
        · exact StateInv_clickSubmit api s ⟨hdep, hans, hvals, hInv.2.2.2⟩ hsub hps hn
  | selectDept d =>
    have hd2 : d ∈ departments := by
      simpa [validEvent] using hval
    by_cases hd : d = s.activeDepartment
    · subst hd
      by_cases hps : s.activeDepartment = "Please Select"
      · obtain ⟨h1, h2, h3, h4, h5, h6⟩ :=
          step_skip_core api s (Event.selectDept s.activeDepartment) rfl (Or.inl hps)
        exact StateInv_of_core s _ h1 h2 h3 h4 h5 h6 hInv
      · cases hsub : s.submitted with
        | true =>
          obtain ⟨h1, h2, h3, h4, h5, h6⟩ :=
            step_skip_core api s (Event.selectDept s.activeDepartment) rfl (Or.inr hsub)
          exact StateInv_of_core s _ h1 h2 h3 h4 h5 h6 hInv
        | false =>
          rcases hans hsub hps with ⟨k, hkeys, hik, hkl⟩
          have hidx : s.currentQuestionIndex
              < (questionsFor s.activeDepartment).length := by omega
          rw [step_selectSame_answering api s hsub hps hidx]
          exact StateInv_writeBackDefault s hInv hsub hps
    · by_cases hps2 : d = "Please Select"
      · subst hps2
        have hactive : s.activeDepartment ≠ "Please Select" := fun h => hd h.symm
        rw [step_selectPS_new api s hactive]
        refine ⟨show ("Please Select" : String) ∈ departments by decide, ?_, ?_, ?_⟩
        · intro _ habs
          exact absurd rfl habs
        · intro p hp
          cases hp
        · intro hfalse
          exact Bool.noConfusion hfalse
      · have hlen : 0 < (questionsFor d).length := by
          rw [questionsFor_real_length d hd2 hps2]
          omega
        rw [step_selectReal_new api s d hd hps2 hlen]
        exact StateInv_writeBack_generic (resetFor s d) hd2 rfl hps2 0 rfl
          (fun p hp => by cases hp) (Nat.le_refl 0) (Nat.zero_le _) hlen

theorem StateInv_initState : StateInv initState := by
  refine ⟨by decide, ?_, ?_, ?_⟩
  · intro _ habs
    exact absurd rfl habs
  · intro p hp
    cases hp
  · intro h
    exact Bool.noConfusion h

theorem StateInv_runTrace_from (api : List String × String) (es : List Event)
    (s : AppState) (hInv : StateInv s) (hv : ∀ e ∈ es, validEvent e = true) :
    StateInv (runTrace api s es) := by
  induction es generalizing s with
  | nil => exact hInv
  | cons e es ih =>
    exact ih (step api s e) (StateInv_step api s e hInv (hv e (List.mem_cons_self e es)))
      (fun e' he' => hv e' (List.mem_cons_of_mem e he'))

/-! ## Where rating values come from: untouched questions stay at the
default 3 -/

theorem currentQuestion_eq (s : AppState)
    (hidx : s.currentQuestionIndex < (questionsFor s.activeDepartment).length) :
    currentQuestion s
      = (questionsFor s.activeDepartment).getD s.currentQuestionIndex "" := by
  simp only [currentQuestion]
  rw [if_neg (Nat.not_le.mpr hidx)]

theorem step_ratings_origin (api : List String × String) (s : AppState) (e : Event)
    (hInv : StateInv s) (hval : validEvent e = true) (q : String)
    (htouch : ∀ v, e = Event.moveSlider v → q ≠ currentQuestion s) :
    (∀ v, lookupRating (step api s e).ratings q = some v →
      v = 3 ∨ lookupRating s.ratings q = some v) ∧
    (∀ v, lookupRating (step api s e).lastSubmittedRatings q = some v →
      v = 3 ∨ lookupRating s.lastSubmittedRatings q = some v ∨
        lookupRating s.ratings q = some v) := by
  have hans := hInv.2.1
  have hwbr : ∀ t : AppState,
      (∀ v, lookupRating (writeBackDefault t).ratings q = some v →
        v = 3 ∨ lookupRating t.ratings q = some v) := by
    intro t v h
    exact lookup_set_default_values t.ratings _ q v h
  cases e with
  | noEvent =>
    by_cases hps : s.activeDepartment = "Please Select"
    · obtain ⟨h1, -, -, -, -, h6⟩ := step_skip_core api s Event.noEvent rfl (Or.inl hps)
      rw [h1, h6]
      exact ⟨fun v h => Or.inr h, fun v h => Or.inr (Or.inl h)⟩
    · cases hsub : s.submitted with
      | true =>
        obtain ⟨h1, -, -, -, -, h6⟩ :=
          step_skip_core api s Event.noEvent rfl (Or.inr hsub)
        rw [h1, h6]
        exact ⟨fun v h => Or.inr h, fun v h => Or.inr (Or.inl h)⟩
      | false =>
        rcases hans hsub hps with ⟨k, hkeys, hik, hkl⟩
        have hidx : s.currentQuestionIndex < (questionsFor s.activeDepartment).length := by
          omega
        rw [step_noEvent_answering api s hsub hps hidx]
        exact ⟨hwbr s, fun v h => Or.inr (Or.inl h)⟩
  | moveSlider w =>
    have hqc := htouch w rfl
    by_cases hps : s.activeDepartment = "Please Select"
    · obtain ⟨h1, -, -, -, -, h6⟩ :=
        step_skip_core api s (Event.moveSlider w) rfl (Or.inl hps)
      rw [h1, h6]
      exact ⟨fun v h => Or.inr h, fun v h => Or.inr (Or.inl h)⟩
    · cases hsub : s.submitted with
      | true =>
        obtain ⟨h1, -, -, -, -, h6⟩ :=
          step_skip_core api s (Event.moveSlider w) rfl (Or.inr hsub)
        rw [h1, h6]
        exact ⟨fun v h => Or.inr h, fun v h => Or.inr (Or.inl h)⟩
      | false =>
        rcases hans hsub hps with ⟨k, hkeys, hik, hkl⟩
        have hidx : s.currentQuestionIndex < (questionsFor s.activeDepartment).length := by
          omega
        rw [step_moveSlider_answering api s w hsub hps hidx]
        have hqc2 : q ≠ (questionsFor s.activeDepartment).getD s.currentQuestionIndex "" := by
          rw [← currentQuestion_eq s hidx]
          exact hqc
        constructor
        · intro v h
          right
          rw [← lookupRating_setRating_ne s.ratings _ q w hqc2]
          exact h
        · exact fun v h => Or.inr (Or.inl h)
  | clickPrev =>
    by_cases hps : s.activeDepartment = "Please Select"
    · obtain ⟨h1, -, -, -, -, h6⟩ :=
        step_skip_core api s Event.clickPrev rfl (Or.inl hps)
      rw [h1, h6]
      exact ⟨fun v h => Or.inr h, fun v h => Or.inr (Or.inl h)⟩
    · cases hsub : s.submitted with
      | true =>
        obtain ⟨h1, -, -, -, -, h6⟩ :=
          step_skip_core api s Event.clickPrev rfl (Or.inr hsub)
        rw [h1, h6]
        exact ⟨fun v h => Or.inr h, fun v h => Or.inr (Or.inl h)⟩
      | false =>
        rcases hans hsub hps with ⟨k, hkeys, hik, hkl⟩
        have hidx : s.currentQuestionIndex < (questionsFor s.activeDepartment).length := by
          omega
        by_cases hn : s.currentQuestionIndex < (questionsFor s.activeDepartment).length - 1
        · by_cases h0 : s.currentQuestionIndex > 0
          · rw [step_clickPrev_enabled api s hsub hps hidx hn h0]
            constructor
            · intro v h
              rcases hwbr _ v h with h2 | h2
              · exact Or.inl h2
              · exact lookup_set_default_values s.ratings _ q v h2
            · exact fun v h => Or.inr (Or.inl h)
          · have h0' : s.currentQuestionIndex = 0 := by omega
            rw [step_clickPrev_disabled api s hsub hps hidx (Or.inl h0')]
            exact ⟨hwbr s, fun v h => Or.inr (Or.inl h)⟩
        · rw [step_clickPrev_disabled api s hsub hps hidx (Or.inr hn)]
          exact ⟨hwbr s, fun v h => Or.inr (Or.inl h)⟩
  | clickNext =>
    by_cases hps : s.activeDepartment = "Please Select"
    · obtain ⟨h1, -, -, -, -, h6⟩ :=
        step_skip_core api s Event.clickNext rfl (Or.inl hps)
      rw [h1, h6]
      exact ⟨fun v h => Or.inr h, fun v h => Or.inr (Or.inl h)⟩
    · cases hsub : s.submitted with
      | true =>
        obtain ⟨h1, -, -, -, -, h6⟩ :=
          step_skip_core api s Event.clickNext rfl (Or.inr hsub)
        rw [h1, h6]
        exact ⟨fun v h => Or.inr h, fun v h => Or.inr (Or.inl h)⟩
      | false =>
        rcases hans hsub hps with ⟨k, hkeys, hik, hkl⟩
        have hidx : s.currentQuestionIndex < (questionsFor s.activeDepartment).length := by
          omega
        by_cases hn : s.currentQuestionIndex < (questionsFor s.activeDepartment).length - 1
        · rw [step_clickNext_enabled api s hsub hps hidx hn]
          constructor
          · intro v h
            rcases hwbr _ v h with h2 | h2
            · exact Or.inl h2
            · exact lookup_set_default_values s.ratings _ q v h2
          · exact fun v h => Or.inr (Or.inl h)
        · rw [step_clickNext_last api s hsub hps hidx hn]
          exact ⟨hwbr s, fun v h => Or.inr (Or.inl h)⟩
  | clickSubmit =>
    by_cases hps : s.activeDepartment = "Please Select"
    · obtain ⟨h1, -, -, -, -, h6⟩ :=
        step_skip_core api s Event.clickSubmit rfl (Or.inl hps)
      rw [h1, h6]
      exact ⟨fun v h => Or.inr h, fun v h => Or.inr (Or.inl h)⟩
    · cases hsub : s.submitted with
      | true =>
        obtain ⟨h1, -, -, -, -, h6⟩ :=
          step_skip_core api s Event.clickSubmit rfl (Or.inr hsub)
        rw [h1, h6]
        exact ⟨fun v h => Or.inr h, fun v h => Or.inr (Or.inl h)⟩
      | false =>
        rcases hans hsub hps with ⟨k, hkeys, hik, hkl⟩
        have hidx : s.currentQuestionIndex < (questionsFor s.activeDepartment).length := by
          omega
        by_cases hn : s.currentQuestionIndex < (questionsFor s.activeDepartment).length - 1
        · rw [step_clickSubmit_notlast api s hsub hps hidx hn]
          exact ⟨hwbr s, fun v h => Or.inr (Or.inl h)⟩
        · rw [step_clickSubmit_last api s hsub hps hidx hn]
          constructor
          · exact hwbr s
          · intro v h
            rcases hwbr s v h with h2 | h2
            · exact Or.inl h2
            · exact Or.inr (Or.inr h2)
  | selectDept d =>
    by_cases hd : d = s.activeDepartment
    · subst hd
      by_cases hps : s.activeDepartment = "Please Select"
      · obtain ⟨h1, -, -, -, -, h6⟩ :=
          step_skip_core api s (Event.selectDept s.activeDepartment) rfl (Or.inl hps)
        rw [h1, h6]
        exact ⟨fun v h => Or.inr h, fun v h => Or.inr (Or.inl h)⟩
      · cases hsub : s.submitted with
        | true =>
          obtain ⟨h1, -, -, -, -, h6⟩ :=
            step_skip_core api s (Event.selectDept s.activeDepartment) rfl (Or.inr hsub)
          rw [h1, h6]
          exact ⟨fun v h => Or.inr h, fun v h => Or.inr (Or.inl h)⟩
        | false =>
          rcases hans hsub hps with ⟨k, hkeys, hik, hkl⟩
          have hidx : s.currentQuestionIndex
              < (questionsFor s.activeDepartment).length := by omega
          rw [step_selectSame_answering api s hsub hps hidx]
          exact ⟨hwbr s, fun v h => Or.inr (Or.inl h)⟩
    · have hd2 : d ∈ departments := by simpa [validEvent] using hval
      by_cases hps2 : d = "Please Select"
      · subst hps2
        have hactive : s.activeDepartment ≠ "Please Select" := fun h => hd h.symm
        rw [step_selectPS_new api s hactive]
        constructor
        · intro v h
          rw [show (resetFor s "Please Select").ratings = [] from rfl] at h
          cases h
        · exact fun v h => Or.inr (Or.inl h)
      · have hlen : 0 < (questionsFor d).length := by
          rw [questionsFor_real_length d hd2 hps2]
          omega
        rw [step_selectReal_new api s d hd hps2 hlen]
        constructor
        · intro v h
          rcases hwbr (resetFor s d) v h with h2 | h2
          · exact Or.inl h2
          · rw [show (resetFor s d).ratings = [] from rfl] at h2
            cases h2
        · exact fun v h => Or.inr (Or.inl h)

theorem trace_untouched (api : List String × String) (es : List Event) (s : AppState)
    (hInv : StateInv s) (hv : ∀ e ∈ es, validEvent e = true) (q : String)
    (hq : q ∉ touchedQuestions api s es) :
    (∀ v, lookupRating (runTrace api s es).ratings q = some v →
      v = 3 ∨ lookupRating s.ratings q = some v) ∧
    (∀ v, lookupRating (runTrace api s es).lastSubmittedRatings q = some v →
      v = 3 ∨ lookupRating s.lastSubmittedRatings q = some v ∨
        lookupRating s.ratings q = some v) := by
  induction es generalizing s with
  | nil => exact ⟨fun v h => Or.inr h, fun v h => Or.inr (Or.inl h)⟩
  | cons e es ih =>
    simp only [touchedQuestions, List.mem_append] at hq
    push_neg at hq
    have htouch : ∀ v, e = Event.moveSlider v → q ≠ currentQuestion s := by
      intro v he
      subst he
      have h1 := hq.1
      simp only [List.mem_singleton] at h1
      exact h1
    have hstep := step_ratings_origin api s e hInv (hv e (List.mem_cons_self e es)) q htouch
    have hInv' := StateInv_step api s e hInv (hv e (List.mem_cons_self e es))
    have ihh := ih (step api s e) hInv'
      (fun e' he' => hv e' (List.mem_cons_of_mem e he')) hq.2
    constructor
    · intro v hfin
      rcases ihh.1 v hfin with h | h
      · exact Or.inl h
      · exact hstep.1 v h
    · intro v hfin
      rcases ihh.2 v hfin with h | h | h
      · exact Or.inl h
      · rcases hstep.2 v h with h2 | h2 | h2
        · exact Or.inl h2
        · exact Or.inr (Or.inl h2)
        · exact Or.inr (Or.inr h2)
      · rcases hstep.1 v h with h2 | h2
        · exact Or.inl h2
        · exact Or.inr (Or.inr h2)

/-! ## Claim C2 -/

/-- C2: for every valid interaction sequence after which the submitted
flag is set, the captured snapshot `last_submitted_ratings` has key
sequence exactly the active department's full question list, every stored
value is in 1..5, and every question the user never explicitly touched
with the slider carries the default value 3. -/
theorem submit_snapshot_complete (api : List String × String) (es : List Event)
    (hv : ∀ e ∈ es, validEvent e = true)
    (hsub : (runTrace api initState es).submitted = true) :
    ∃ d, (runTrace api initState es).lastSubmittedDepartment = some d ∧
      (runTrace api initState es).activeDepartment = d ∧
      (runTrace api initState es).lastSubmittedRatings.map Prod.fst = questionsFor d ∧
      (∀ p ∈ (runTrace api initState es).lastSubmittedRatings, 1 ≤ p.2 ∧ p.2 ≤ 5) ∧
      (∀ q, q ∉ touchedQuestions api initState es →
        ∀ v, lookupRating (runTrace api initState es).lastSubmittedRatings q = some v →
          v = 3) := by
  have hInv := StateInv_runTrace_from api es initState StateInv_initState hv
  rcases hInv.2.2.2 hsub with ⟨d, h1, h2, h3, h4⟩
  refine ⟨d, h1, h2, h3, h4, ?_⟩
  intro q hq v hval2
  rcases (trace_untouched api es initState StateInv_initState hv q hq).2 v hval2
    with h | h | h
  · exact h
  · exact Option.noConfusion h
  · exact Option.noConfusion h

/-- Witness for `submit_snapshot_complete`: the end-to-end walkthrough of
Sales accepting every default. -/
theorem submit_snapshot_complete_witness :
    (∀ e ∈ salesDefaultTrace, validEvent e = true) ∧
    (runTrace (["r"], "s") initState salesDefaultTrace).submitted = true ∧
    (∃ d, (runTrace (["r"], "s") initState salesDefaultTrace).lastSubmittedDepartment
        = some d ∧
      (runTrace (["r"], "s") initState salesDefaultTrace).activeDepartment = d ∧
      (runTrace (["r"], "s") initState salesDefaultTrace).lastSubmittedRatings.map Prod.fst
        = questionsFor d ∧
      (∀ p ∈ (runTrace (["r"], "s") initState salesDefaultTrace).lastSubmittedRatings,
        1 ≤ p.2 ∧ p.2 ≤ 5) ∧
      (∀ q, q ∉ touchedQuestions (["r"], "s") initState salesDefaultTrace →
        ∀ v, lookupRating
          (runTrace (["r"], "s") initState salesDefaultTrace).lastSubmittedRatings q
            = some v → v = 3)) :=
  ⟨by decide, by decide,
    submit_snapshot_complete (["r"], "s") salesDefaultTrace (by decide) (by decide)⟩

/-! ## Claim C9 -/

/-- C9 (counterexample): from `Answering(8)` in Sales (index 8 is below
the last index 9), clicking Next and then Previous does NOT return to
index 8: the last question renders no Previous button (src/app.py
line 274 vs 286), so the Previous click is a no-op and the index stays
at 9. -/
theorem next_prev_not_roundtrip_cex :
    (step ([], "") (step ([], "")
        (salesAnswering 8 (((questionsFor "Sales").take 9).map (fun q => (q, 3))))
        Event.clickNext) Event.clickPrev).currentQuestionIndex = 9 ∧
    (9 : Nat) ≠ 8 := by
  constructor
  · decide
  · decide

/-- C9 (amended): for every index `i` with `i + 1` still below the last
index, Next from `Answering(i)` followed by Previous returns to index `i`
and every recorded rating is unchanged; and rating the displayed question
never alters the ratings recorded for other questions. (From
`Answering(lastIndex - 1)`, Next reaches the last question, where no
Previous button is rendered, so the round trip is not available there.) -/
theorem next_prev_roundtrip (api : List String × String) (s : AppState)
    (hsub : s.submitted = false) (hps : s.activeDepartment ≠ "Please Select")
    (hn : s.currentQuestionIndex + 1 < (questionsFor s.activeDepartment).length - 1) :
    ((step api (step api s Event.clickNext) Event.clickPrev).currentQuestionIndex
        = s.currentQuestionIndex ∧
      (∀ q v, lookupRating s.ratings q = some v →
        lookupRating (step api (step api s Event.clickNext) Event.clickPrev).ratings q
          = some v)) ∧
    (∀ v q, q ≠ currentQuestion s →
      lookupRating (step api s (Event.moveSlider v)).ratings q
        = lookupRating s.ratings q) := by
  have hidx : s.currentQuestionIndex < (questionsFor s.activeDepartment).length := by
    omega
  have hn1 : s.currentQuestionIndex < (questionsFor s.activeDepartment).length - 1 := by
    omega
  constructor
  · rw [step_clickNext_enabled api s hsub hps hidx hn1]
    have hidx2 : s.currentQuestionIndex + 1 < (questionsFor s.activeDepartment).length := by
      omega
    rw [step_clickPrev_enabled api
      (writeBackDefault
        { writeBackDefault s with currentQuestionIndex := s.currentQuestionIndex + 1 })
      hsub hps hidx2 hn (Nat.succ_pos _)]
    constructor
    · show s.currentQuestionIndex + 1 - 1 = s.currentQuestionIndex
      omega
    · intro q v h
      apply lookup_set_default_preserves
      apply lookup_set_default_preserves
      apply lookup_set_default_preserves
      apply lookup_set_default_preserves
      exact h
  · intro v q hq
    rw [step_moveSlider_answering api s v hsub hps hidx]
    rw [currentQuestion_eq s hidx] at hq
    exact lookupRating_setRating_ne s.ratings _ q v hq

/-- Witness for `next_prev_roundtrip` at a concrete Sales state on
question 1 with a recorded rating for question 0. -/
theorem next_prev_roundtrip_witness :
    salesStateOne.submitted = false ∧
    salesStateOne.activeDepartment ≠ "Please Select" ∧
    (salesStateOne.currentQuestionIndex + 1
      < (questionsFor salesStateOne.activeDepartment).length - 1) ∧
    ((((step ([], "") (step ([], "") salesStateOne Event.clickNext)
          Event.clickPrev).currentQuestionIndex
        = salesStateOne.currentQuestionIndex ∧
      (∀ q v, lookupRating salesStateOne.ratings q = some v →
        lookupRating (step ([], "") (step ([], "") salesStateOne Event.clickNext)
            Event.clickPrev).ratings q = some v)) ∧
    (∀ v q, q ≠ currentQuestion salesStateOne →
      lookupRating (step ([], "") salesStateOne (Event.moveSlider v)).ratings q
        = lookupRating salesStateOne.ratings q))) :=
  ⟨rfl, by decide, by decide,
    next_prev_roundtrip ([], "") salesStateOne rfl (by decide) (by decide)⟩
